import Mathlib

/-!
# Verification of the ig-song-finder identification task orchestrator

A shallow embedding of the repository `salimhm/ig-song-finder`:

* `src/songs/models.py`           — `SongSearch`, `TaskStatus` (the data model)
* `src/songs/serializers.py`      — `FindSongRequestSerializer.validate_url`
* `src/songs/views.py`            — `extract_media_id`, `FindSongView.post`,
                                    `TaskStatusView.get`, `StatsView.get`
* `src/songs/services/instagram.py` — `extract_audio_from_instagram`, `trim_audio`
* `src/songs/services/shazam.py`  — `identify_song_with_shazam`
* `src/songs/tasks.py`            — `identify_song_task` and the Celery retry
                                    driver (`bind=True, max_retries=3,
                                    default_retry_delay=5`)

External collaborators (yt-dlp, ffmpeg, the Shazam HTTP API, the database) are
modelled as explicit environments/oracles; exceptions are modelled as `Except`
values carrying the Python exception message string, since the task layer
re-derives the error classification from that string (`"CODE: message"`).
The filesystem of temporary audio artifacts is modelled as a list of file
names.  Python string operations used by the code (`.lower()`, `.strip()`,
`.split(':')`, `in`, `.isupper()`, `.startswith`, `.replace`) are embedded for
the ASCII strings that actually flow through this code.
-/

deriving instance DecidableEq for Except

namespace IgSongFinder

/-! ## Python string primitives -/

/-- `pat in s` for Python strings (contiguous substring test), on char lists. -/
def listContainsSeq (pat : List Char) : List Char → Bool
  | [] => pat.isEmpty
  | c :: rest => pat.isPrefixOf (c :: rest) || listContainsSeq pat rest

/-- Python `pat in s` (substring containment). -/
def strContains (s pat : String) : Bool :=
  listContainsSeq pat.data s.data

/-- Python `c in s` (single-character containment). -/
def strContainsChar (s : String) (c : Char) : Bool := s.data.contains c

/-- Python `str.isupper()` restricted to ASCII: at least one cased (alphabetic)
character and no lowercase character. -/
def pyIsUpper (s : String) : Bool :=
  s.data.any (fun c => c.isAlpha) && s.data.all (fun c => !(c.isLower))

/-- Python `str.lower()` for ASCII strings. -/
def pyToLower (s : String) : String := String.mk (s.data.map Char.toLower)

/-- Python whitespace stripped by `str.strip()`. -/
def isPySpace (c : Char) : Bool :=
  c == ' ' || c == '\t' || c == '\n' || c == '\r' || c == '\x0b' || c == '\x0c'

/-- Python `str.strip()`. -/
def pyStrip (s : String) : String :=
  String.mk (((s.data.dropWhile isPySpace).reverse.dropWhile isPySpace).reverse)

/-- Python `str.startswith(pre)`. -/
def pyStartsWith (s pre : String) : Bool := pre.data.isPrefixOf s.data

/-- Python `s.split(':')[0]`: everything before the first colon. -/
def beforeFirstColon (s : String) : String :=
  String.mk (s.data.takeWhile (fun c => c ≠ ':'))

/-- Python `s.split(':', 1)[1]`: everything after the first colon. -/
def afterFirstColon (s : String) : String :=
  String.mk ((s.data.dropWhile (fun c => c ≠ ':')).drop 1)

/-- Python `s.replace(pat, '')` on char lists, left to right, non-overlapping;
`fuel` bounds the recursion (the input length suffices). -/
def removeAllAux (pat : List Char) : Nat → List Char → List Char
  | 0, s => s
  | _ + 1, [] => []
  | fuel + 1, c :: rest =>
    if pat.isPrefixOf (c :: rest) && !pat.isEmpty then
      removeAllAux pat fuel ((c :: rest).drop pat.length)
    else c :: removeAllAux pat fuel rest

/-- Python `s.replace(pat, '')`. -/
def pyRemoveAll (s pat : String) : String :=
  String.mk (removeAllAux pat.data s.data.length s.data)

/-- `os.path.splitext`: split a (simple, dot-containing-basename) path at the
last dot.  The paths produced by this code are `<videoId>.<ext>`. -/
def pySplitext (p : String) : String × String :=
  match (p.data.reverse.takeWhile (fun c => c ≠ '.')) with
  | rev =>
    if rev.length = p.data.length then (p, "")  -- no dot at all
    else (String.mk (p.data.take (p.data.length - rev.length - 1)),
          String.mk ('.' :: rev.reverse))

/-! ## Data model (`src/songs/models.py`) -/

/-- `TaskStatus.status` choices. -/
inductive Status
  | pending
  | processing
  | completed
  | failed
deriving DecidableEq, Repr

/-- `SongSearch` model: cached identification result keyed by `ig_media_id`.
`search_count` defaults to 1 on creation. -/
structure SongSearch where
  igMediaId : String
  igUrl : String
  songTitle : String
  artistName : String
  albumArtwork : String
  spotifyLink : String
  appleMusicLink : String
  shazamTrackId : String
  shazamUrl : String
  searchCount : Nat
deriving DecidableEq, Repr

/-- `TaskStatus` model: the poll-able task record.  The `song_search` foreign
key is modelled by the `ig_media_id` of the referenced `SongSearch` row.
`error_code`/`error_message` default to the empty string. -/
structure TaskRecord where
  taskId : String
  status : Status
  songSearch : Option String
  errorCode : String
  errorMessage : String
deriving DecidableEq, Repr

/-- The persistent stores plus the temp-audio filesystem. -/
structure Store where
  songs : List SongSearch
  tasks : List TaskRecord
  files : List String
deriving DecidableEq, Repr

/-- `TaskStatus.objects.get(task_id=...)` (first row with that task id). -/
def findTask (st : Store) (tid : String) : Option TaskRecord :=
  st.tasks.find? (fun t => t.taskId == tid)

/-- `task_status.save()`: write back the row with this task id. -/
def saveTask (st : Store) (r : TaskRecord) : Store :=
  { st with tasks := st.tasks.map (fun t => if t.taskId == r.taskId then r else t) }

/-- `SongSearch.objects.get(ig_media_id=...)`. -/
def findSongByMediaId (songs : List SongSearch) (mid : String) : Option SongSearch :=
  songs.find? (fun s => s.igMediaId == mid)

/-! ## Pipeline events (sleeps and Celery re-queues), for the retry-policy
claims. -/

inductive PipeEvent
  | sleep (secs : Nat)
  | requeue (secs : Nat)
deriving DecidableEq, Repr

/-! ## `src/songs/services/instagram.py` -/

/-- `MAX_RETRIES = 10` (instagram.py line 17). -/
def MAX_RETRIES : Nat := 10

/-- `RETRY_DELAY = 5` (instagram.py line 18). -/
def RETRY_DELAY : Nat := 5

/-- Outcome of one `ydl.extract_info(url, download=False)` attempt, supplied by
the yt-dlp collaborator environment. -/
inductive ExtractAttempt
  | ok (videoId : String)        -- info extracted, with its `id`
  | noInfo                       -- `info` falsy: the code returns None at once
  | dlErr (msg : String)         -- `yt_dlp.DownloadError` with message `msg`
  | exc (msg : String)           -- any other exception with message `msg`

/-- Environment of one `extract_audio_from_instagram` call: the per-attempt
metadata-extraction outcomes, the direct-download outcome (on success the
collaborator writes `<videoId>.<downloadedExt>` into the temp dir), and
whether the ffmpeg trim succeeds (returncode 0 and output file present). -/
structure ExtractEnv where
  attempts : Nat → ExtractAttempt
  downloadOk : Bool
  downloadErrMsg : String
  downloadedExt : String
  trimOk : Bool

/-- Result of the metadata-extraction retry loop. -/
inductive LoopOut
  | success (videoId : String)
  | gotNone
  | raised (msg : String)
deriving DecidableEq, Repr

/-- instagram.py line 95. -/
def contentNotFoundMsg : String :=
  "CONTENT_NOT_FOUND: The Instagram content does not exist or has been deleted"

/-- instagram.py line 106. -/
def privateAccountMsg : String :=
  "PRIVATE_ACCOUNT: Cannot access content from private accounts"

/-- instagram.py line 93: `'not exist' in error_msg or '404' in error_msg`
on the lowercased message. -/
def isNotExistErr (m : String) : Bool :=
  strContains (pyToLower m) "not exist" || strContains (pyToLower m) "404"

/-- instagram.py line 98: `'private' ... or 'login required' ... or 'rate'`
on the lowercased message. -/
def isPrivateErr (m : String) : Bool :=
  strContains (pyToLower m) "private" ||
    strContains (pyToLower m) "login required" || strContains (pyToLower m) "rate"

/-- The `for attempt in range(1, MAX_RETRIES + 1)` metadata loop
(instagram.py lines 76-127).  Returns the loop outcome, the retry-sleep
events, and the number of attempts executed.  `fuel` is the number of
attempts still allowed (initially `MAX_RETRIES`), `attempt` the 1-based
attempt counter used by the `attempt < MAX_RETRIES` guards. -/
def attemptLoop (att : Nat → ExtractAttempt) (attempt fuel : Nat) :
    LoopOut × List PipeEvent × Nat :=
  match fuel with
  | 0 => (.gotNone, [], 0)  -- not reachable with fuel = MAX_RETRIES + 1 - attempt
  | fuel' + 1 =>
    match att attempt with
    | .ok vid => (.success vid, [], 1)
    | .noInfo => (.gotNone, [], 1)     -- `if not info: return None` (line 81-83)
    | .dlErr m =>
      if isNotExistErr m then
        (.raised contentNotFoundMsg, [], 1)     -- non-retryable, raised at once
      else if isPrivateErr m then
        if attempt < MAX_RETRIES then
          let (r, ev, n) := attemptLoop att (attempt + 1) fuel'
          (r, PipeEvent.sleep RETRY_DELAY :: ev, n + 1)
        else (.raised privateAccountMsg, [], 1)
      else
        if attempt < MAX_RETRIES then
          let (r, ev, n) := attemptLoop att (attempt + 1) fuel'
          (r, PipeEvent.sleep RETRY_DELAY :: ev, n + 1)
        else (.raised ("DOWNLOAD_ERROR: " ++ m), [], 1)
    | .exc m =>
      if attempt < MAX_RETRIES then
        let (r, ev, n) := attemptLoop att (attempt + 1) fuel'
        (r, PipeEvent.sleep RETRY_DELAY :: ev, n + 1)
      else (.raised m, [], 1)          -- bare `raise` re-raises the original

/-- Temp file written by yt-dlp: `<videoId>.<ext>` (we elide the temp dir). -/
def tempFileName (videoId ext : String) : String := videoId ++ "." ++ ext

/-- `trim_audio(audio_path, duration)` (instagram.py lines 186-235): on
success writes `<base>_trimmed<ext>` and returns it; on any ffmpeg failure
(nonzero returncode, timeout, ffmpeg missing, other exception) returns the
original path; returns None when the input file does not exist. -/
def trim_audio (trimOk : Bool) (audio_path : String) (files : List String) :
    Option String × List String :=
  if files.contains audio_path then
    let (base, ext) := pySplitext audio_path
    let output_path := base ++ "_trimmed" ++ ext
    if trimOk then (some output_path, files ++ [output_path])
    else (some audio_path, files)
  else (none, files)

/-- Result of `extract_audio_from_instagram`: the returned value / raised
exception, the temp filesystem afterwards, the sleep events, and the number
of metadata attempts executed. -/
structure ExtractResult where
  res : Except String (Option String)
  files : List String
  events : List PipeEvent
  attempts : Nat
deriving DecidableEq, Repr

/-- instagram.py line 41-43. -/
def invalidUrlMsg : String :=
  "INVALID_URL: This URL type is not supported. Please provide a direct reel URL (e.g. https://www.instagram.com/reels/ABC123/)"

/-- instagram.py lines 33-37: the unsupported URL shapes, checked with
`re.search` on literal patterns, i.e. substring containment. -/
def hasUnsupportedPattern (url : String) : Bool :=
  strContains url "/reels/audio/" || strContains url "/explore/" ||
    strContains url "/accounts/"

/-- `extract_audio_from_instagram(url)` (instagram.py lines 21-183). -/
def extract_audio_from_instagram (env : ExtractEnv) (url : String)
    (files : List String) : ExtractResult :=
  if hasUnsupportedPattern url then
    { res := .error invalidUrlMsg, files := files, events := [], attempts := 0 }
  else
    match attemptLoop env.attempts 1 MAX_RETRIES with
    | (.raised m, ev, n) => { res := .error m, files := files, events := ev, attempts := n }
    | (.gotNone, ev, n) => { res := .ok none, files := files, events := ev, attempts := n }
    | (.success vid, ev, n) =>
      if env.downloadOk then
        let files1 := files ++ [tempFileName vid env.downloadedExt]
        -- lines 153-168: look for `<id>.mp3`, then the m4a/mp4/webm alternatives
        match (["mp3", "m4a", "mp4", "webm"].map (tempFileName vid)).find?
            (fun p => files1.contains p) with
        | none =>
          -- line 166-168: audio file not found after extraction -> return None;
          -- the downloaded artifact is NOT removed on this path
          { res := .ok none, files := files1, events := ev, attempts := n }
        | some audio_path =>
          let (tr, files2) := trim_audio env.trimOk audio_path files1
          match tr with
          | some trimmed =>
            if trimmed ≠ audio_path then
              -- lines 174-181: keep the trimmed file, remove the original
              { res := .ok (some trimmed), files := files2.erase audio_path,
                events := ev, attempts := n }
            else
              { res := .ok (some trimmed), files := files2, events := ev, attempts := n }
          | none =>
            { res := .ok (some audio_path), files := files2, events := ev, attempts := n }
      else
        { res := .error ("DOWNLOAD_ERROR: Failed to download media: " ++ env.downloadErrMsg),
          files := files, events := ev, attempts := n }

/-! ## `src/songs/services/shazam.py` -/

/-- One entry of a `hub` `actions` list (`type`/`uri`, absent keys default to
the empty string via `.get(..., '')`). -/
structure HubAction where
  type : String
  uri : String
deriving DecidableEq, Repr

/-- One entry of `hub['options']`. -/
structure HubOption where
  providername : String
  actions : List HubAction
deriving DecidableEq, Repr

/-- One entry of `hub['providers']`. -/
structure HubProvider where
  type : String
  actions : List HubAction
deriving DecidableEq, Repr

/-- The `track` dict fields read by tasks.py: `title`, `subtitle`, `key`,
`url`, `images.coverart`, `images.background` and the `hub` payload.  All
string fields default to the empty string (`.get(..., '')`). -/
structure Track where
  title : String
  subtitle : String
  key : String
  url : String
  coverart : String
  background : String
  hubOptions : List HubOption
  hubProviders : List HubProvider
deriving DecidableEq, Repr

/-- JSON body shapes distinguished by shazam.py lines 96-113. -/
inductive ShazamBody
  | listBody (tracks : List Track)   -- a JSON list of matches
  | dictWithTrack (t : Track)        -- a dict with a truthy 'track' entry
  | dictWithTitle (t : Track)        -- a dict carrying the track fields directly
  | emptyBody                        -- anything else: no song identified
deriving Repr

/-- Outcome of the HTTP POST to the recognition API. -/
inductive ShazamResponse
  | httpResp (status : Nat) (body : ShazamBody) (text : String)
  | netFail                          -- requests.RequestException
deriving Repr

/-- Environment of one `identify_song_with_shazam` call. -/
structure ShazamEnv where
  apiKeyConfigured : Bool
  response : ShazamResponse
deriving Repr

/-- `identify_song_with_shazam(audio_path)` (shazam.py lines 19-122); the
temp filesystem is consulted for the `os.path.exists(audio_path)` check. -/
def identify_song_with_shazam (env : ShazamEnv) (audio_path : String)
    (files : List String) : Except String (Option Track) :=
  if !env.apiKeyConfigured then
    .error "API_KEY_MISSING: Shazam API key not configured"
  else if !(files.contains audio_path) then
    .error "AUDIO_NOT_FOUND: Audio file not found"
  else
    match env.response with
    | .netFail => .error "NETWORK_ERROR: Failed to connect to Shazam API"
    | .httpResp status body text =>
      if status = 429 then
        .error "RATE_LIMIT: API rate limit exceeded. Please try again later."
      else if status = 401 || status = 403 then
        -- line 83 (the message also embeds the key prefix and host constants,
        -- which do not affect the `CODE: message` classification)
        .error ("AUTH_ERROR: Shazam 403. Body: " ++ text)
      else if status ≠ 200 then
        .error ("API_ERROR: Shazam API returned status " ++ toString status)
      else
        match body with
        | .listBody (t :: _) => .ok (some t)
        | .listBody [] => .ok none
        | .dictWithTrack t => .ok (some t)
        | .dictWithTitle t => .ok (some t)
        | .emptyBody => .ok none

/-! ## `src/songs/tasks.py` -/

/-- First action with `type == 'uri'` in an options entry (inner loop of
tasks.py lines 66-69, which breaks on the first hit). -/
def firstUriAction : List HubAction → Option String
  | [] => none
  | a :: rest => if a.type = "uri" then some a.uri else firstUriAction rest

/-- Apple Music link extraction (tasks.py lines 62-69).  The outer loop has no
break, so a later `applemusic` option overwrites an earlier one. -/
def getAppleMusicLink (track : Track) : String :=
  track.hubOptions.foldl (fun acc opt =>
    if opt.providername = "applemusic" then
      match firstUriAction opt.actions with
      | some u => u
      | none => acc
    else acc) ""

/-- First action whose uri starts with `spotify:` (inner loop of tasks.py
lines 74-82, which breaks on the first such action). -/
def firstSpotifyUri : List HubAction → Option String
  | [] => none
  | a :: rest =>
    if pyStartsWith a.uri "spotify:" then some a.uri else firstSpotifyUri rest

/-- Spotify link extraction (tasks.py lines 71-82): only `spotify:search:`
URIs are converted; a non-search `spotify:` URI breaks out without setting
the link. -/
def getSpotifyLink (track : Track) : String :=
  track.hubProviders.foldl (fun acc prov =>
    if prov.type = "SPOTIFY" then
      match firstSpotifyUri prov.actions with
      | some uri =>
        if pyStartsWith uri "spotify:search:" then
          "https://open.spotify.com/search/" ++ (pyRemoveAll uri "spotify:search:")
        else acc
      | none => acc
    else acc) ""

/-- `SongSearch.objects.update_or_create(ig_media_id=media_id, defaults=...)`
(tasks.py lines 89-101): update every `defaults` field of the existing row
(preserving `search_count` and identity) or create a new row with
`search_count = 1` (the model default). -/
def update_or_create (songs : List SongSearch) (media_id url title artist
    artwork spotify apple trackId shazamUrl : String) : List SongSearch :=
  match findSongByMediaId songs media_id with
  | some _ =>
    songs.map (fun s =>
      if s.igMediaId == media_id then
        { s with igUrl := url, songTitle := title, artistName := artist,
                 albumArtwork := artwork, spotifyLink := spotify,
                 appleMusicLink := apple, shazamTrackId := trackId,
                 shazamUrl := shazamUrl }
      else s)
  | none =>
    songs ++ [{ igMediaId := media_id, igUrl := url, songTitle := title,
                artistName := artist, albumArtwork := artwork,
                spotifyLink := spotify, appleMusicLink := apple,
                shazamTrackId := trackId, shazamUrl := shazamUrl,
                searchCount := 1 }]

/-- tasks.py line 133. -/
def non_retryable_errors : List String :=
  ["PRIVATE_ACCOUNT", "CONTENT_NOT_FOUND", "NO_SONG_FOUND", "INVALID_URL"]

/-- Error-code parsing from the exception message (tasks.py lines 128-139):
`"CODE: message"` with `CODE` uppercase and containing an underscore;
otherwise `PROCESSING_ERROR` with the whole message. -/
def parse_error_code (error_str : String) : String × String :=
  if strContainsChar error_str ':' then
    let potential := pyStrip (beforeFirstColon error_str)
    if pyIsUpper potential && strContainsChar potential '_' then
      (potential, pyStrip (afterFirstColon error_str))
    else ("PROCESSING_ERROR", error_str)
  else ("PROCESSING_ERROR", error_str)

/-- How one Celery task invocation ends. -/
inductive RunOutcome
  | done (songFound : Bool)             -- returned the success dict
  | failedReturn (code msg : String)    -- returned the failed dict, no retry
  | retryRaised (msg : String)          -- `raise self.retry(exc=e)`
deriving DecidableEq, Repr

/-- Result of one `identify_song_task` invocation: the stores afterwards, the
outcome, the sleep events, the ordered task-record writes (`save()` log) and
the number of extraction attempts executed. -/
structure RunResult where
  store : Store
  outcome : RunOutcome
  events : List PipeEvent
  log : List TaskRecord
  extractionAttempts : Nat
deriving DecidableEq, Repr

/-- The `except Exception` handler of tasks.py lines 124-156: classify the
message, mark the record failed (a no-op if the record is gone), then either
return (non-retryable code) or `raise self.retry`. -/
def handleFailure (st : Store) (task_id msg : String) (events : List PipeEvent)
    (log : List TaskRecord) (att : Nat) : RunResult :=
  let (code, emsg) := parse_error_code msg
  match findTask st task_id with
  | some trec =>
    let recF := { trec with
      status := Status.failed
      errorCode := code
      errorMessage := emsg }
    let st' := saveTask st recF
    if non_retryable_errors.contains code then
      ⟨st', .failedReturn code emsg, events, log ++ [recF], att⟩
    else
      ⟨st', .retryRaised msg, events, log ++ [recF], att⟩
  | none =>
    -- `except Exception: pass` (tasks.py lines 148-149)
    if non_retryable_errors.contains code then
      ⟨st, .failedReturn code emsg, events, log, att⟩
    else
      ⟨st, .retryRaised msg, events, log, att⟩

/-- One invocation of `identify_song_task(task_id, url, media_id)`
(tasks.py lines 17-156). -/
def identify_song_task (env : ExtractEnv × ShazamEnv) (st : Store)
    (task_id url media_id : String) : RunResult :=
  match findTask st task_id with
  | none =>
    -- `TaskStatus.objects.get` raises DoesNotExist, caught by the outer handler
    handleFailure st task_id "TaskStatus matching query does not exist." [] [] 0
  | some rec0 =>
    let rec1 := { rec0 with status := Status.processing }
    let st1 := saveTask st rec1
    let ex := extract_audio_from_instagram env.1 url st1.files
    let st2 := { st1 with files := ex.files }
    match ex.res with
    | .error msg =>
      -- `finally` is a no-op: audio_path is still None
      handleFailure st2 task_id msg ex.events [rec1] ex.attempts
    | .ok none =>
      -- tasks.py lines 39-40; `finally` is a no-op (audio_path is None)
      handleFailure st2 task_id "Failed to extract audio from Instagram URL"
        ex.events [rec1] ex.attempts
    | .ok (some audio_path) =>
      match identify_song_with_shazam env.2 audio_path st2.files with
      | .error msg =>
        -- `finally` removes the temp audio file (tasks.py lines 116-122)
        let st3 := { st2 with files := st2.files.erase audio_path }
        handleFailure st3 task_id msg ex.events [rec1] ex.attempts
      | .ok none =>
        -- tasks.py lines 47-53: completed, NO_SONG_FOUND
        let rec2 := { rec1 with
          status := Status.completed
          errorCode := "NO_SONG_FOUND"
          errorMessage := "No song was identified in this audio." }
        let st3 := saveTask st2 rec2
        let st4 := { st3 with files := st3.files.erase audio_path }
        ⟨st4, .done false, ex.events, [rec1, rec2], ex.attempts⟩
      | .ok (some track) =>
        -- tasks.py lines 55-114
        let apple := getAppleMusicLink track
        let spotify := getSpotifyLink track
        let artwork := if track.coverart ≠ "" then track.coverart else track.background
        let songs' := update_or_create st2.songs media_id url track.title
          track.subtitle artwork spotify apple track.key track.url
        let rec2 := { rec1 with
          status := Status.completed
          songSearch := some media_id }
        let st3 := saveTask { st2 with songs := songs' } rec2
        let st4 := { st3 with files := st3.files.erase audio_path }
        ⟨st4, .done true, ex.events, [rec1, rec2], ex.attempts⟩

/-- `@shared_task(bind=True, max_retries=3, ...)` (tasks.py line 17). -/
def CELERY_MAX_RETRIES : Nat := 3

/-- `default_retry_delay=5` (tasks.py line 17). -/
def CELERY_RETRY_DELAY : Nat := 5

/-- Result of driving one task to the end of its Celery retry chain. -/
structure PipelineResult where
  store : Store
  runs : Nat
  events : List PipeEvent
  log : List TaskRecord
  attemptsPerRun : List Nat
deriving DecidableEq, Repr

/-- The Celery retry driver: `raise self.retry(exc=e)` re-queues the same task
id after `default_retry_delay` while `retries < max_retries`, and gives up
(raising `MaxRetriesExceededError`, leaving the record as last written)
otherwise.  `r` is the current retry count, `fuel = max_retries + 1 - r`. -/
def pipelineGo (envs : Nat → ExtractEnv × ShazamEnv) (task_id url media_id : String)
    (r fuel : Nat) (st : Store) : PipelineResult :=
  match fuel with
  | 0 => ⟨st, 0, [], [], []⟩  -- not reachable with fuel = max_retries + 1 - r
  | fuel' + 1 =>
    let res := identify_song_task (envs r) st task_id url media_id
    match res.outcome with
    | .retryRaised _ =>
      if r < CELERY_MAX_RETRIES then
        let rest := pipelineGo envs task_id url media_id (r + 1) fuel' res.store
        ⟨rest.store, rest.runs + 1,
         res.events ++ PipeEvent.requeue CELERY_RETRY_DELAY :: rest.events,
         res.log ++ rest.log, res.extractionAttempts :: rest.attemptsPerRun⟩
      else ⟨res.store, 1, res.events, res.log, [res.extractionAttempts]⟩
    | _ => ⟨res.store, 1, res.events, res.log, [res.extractionAttempts]⟩

/-- One end-to-end asynchronous pipeline for a task: the initial invocation
plus up to `CELERY_MAX_RETRIES` re-queued invocations. -/
def identify_song_pipeline (envs : Nat → ExtractEnv × ShazamEnv) (st : Store)
    (task_id url media_id : String) : PipelineResult :=
  pipelineGo envs task_id url media_id 0 (CELERY_MAX_RETRIES + 1) st

/-! ## `src/songs/serializers.py`: `FindSongRequestSerializer.validate_url`

The two patterns, matched with `re.match(..., re.IGNORECASE)` (i.e. anchored
at the start, prefix match, case-insensitive):

  `https?://(www\.)?instagram\.com/(p|reel|reels|stories)/[\w-]+`
  `https?://(www\.)?instagram\.com/[\w.]+/(p|reel)/[\w-]+`

We implement an exact matcher for these specific regexes on lowercased input
(all literal parts are lowercase; the character classes are closed under case).
Alternations followed by `/` are equivalent to ordered prefix tests of the
alternative plus the slash, and a greedy `[\w.]+` that cannot contain `/` is
forced to the maximal run, so no general backtracking is needed. -/

/-- Python `\w` for the ASCII strings handled here. -/
def isWordChar (c : Char) : Bool := c.isAlphanum || c == '_'

/-- Strip a literal prefix from a char list, or fail. -/
def dropLit (pat : List Char) (l : List Char) : Option (List Char) :=
  if pat.isPrefixOf l then some (l.drop pat.length) else none

/-- `https?://(www\.)?instagram\.com/` on lowercased input. -/
def matchSchemeHost (l : List Char) : Option (List Char) :=
  match dropLit "http".data l with
  | none => none
  | some r1 =>
    let r2 :=
      match dropLit "s://".data r1 with
      | some x => some x
      | none => dropLit "://".data r1
    match r2 with
    | none => none
    | some r3 =>
      match dropLit "www.".data r3 with
      | some r4 =>
        match dropLit "instagram.com/".data r4 with
        | some r5 => some r5
        | none => dropLit "instagram.com/".data r3
      | none => dropLit "instagram.com/".data r3

/-- First serializer pattern: `.../(p|reel|reels|stories)/[\w-]+`. -/
def matchSerializerPatternA (l : List Char) : Bool :=
  match matchSchemeHost l with
  | none => false
  | some r =>
    let tryAlt (seg : String) : Bool :=
      match dropLit seg.data r with
      | some (c :: _) => isWordChar c || c == '-'
      | _ => false
    tryAlt "p/" || tryAlt "reel/" || tryAlt "reels/" || tryAlt "stories/"

/-- Second serializer pattern: `.../[\w.]+/(p|reel)/[\w-]+`. -/
def matchSerializerPatternB (l : List Char) : Bool :=
  match matchSchemeHost l with
  | none => false
  | some r =>
    let seg := r.takeWhile (fun c => isWordChar c || c == '.')
    if seg.isEmpty then false
    else
      match r.drop seg.length with
      | '/' :: r2 =>
        let tryAlt (s : String) : Bool :=
          match dropLit s.data r2 with
          | some (c :: _) => isWordChar c || c == '-'
          | _ => false
        tryAlt "p/" || tryAlt "reel/"
      | _ => false

/-- `FindSongRequestSerializer.validate_url` (serializers.py lines 13-26):
true when either Instagram pattern matches the URL. -/
def validate_url (url : String) : Bool :=
  let l := url.data.map Char.toLower
  matchSerializerPatternA l || matchSerializerPatternB l

/-! ## `src/songs/views.py`: `extract_media_id`

Patterns, matched with `re.search` (leftmost occurrence, case-sensitive),
tried in order:

  `instagram\.com/(?:p|reel|reels)/([A-Za-z0-9_-]+)`
  `instagram\.com/stories/[^/]+/(\d+)`

with a `uuid.uuid5(uuid.NAMESPACE_URL, url)` fallback. -/

/-- The capture class `[A-Za-z0-9_-]`. -/
def isMediaCodeChar (c : Char) : Bool := c.isAlphanum || c == '_' || c == '-'

/-- One alternative of the first media-id pattern: the literal segment (with
its trailing slash) followed by the greedy nonempty `[A-Za-z0-9_-]+` capture. -/
def tryMediaAlt (seg : String) (r : List Char) : Option String :=
  match dropLit seg.data r with
  | some r2 =>
    let code := r2.takeWhile isMediaCodeChar
    if code.isEmpty then none else some (String.mk code)
  | none => none

/-- Try the first media-id pattern at this exact position, alternatives in
the regex's order. -/
def matchMediaPatternAt (l : List Char) : Option String :=
  match dropLit "instagram.com/".data l with
  | none => none
  | some r =>
    match tryMediaAlt "p/" r with
    | some s => some s
    | none =>
      match tryMediaAlt "reel/" r with
      | some s => some s
      | none => tryMediaAlt "reels/" r

/-- `re.search` for the first media-id pattern: scan positions left to right. -/
def searchMediaPattern : List Char → Option String
  | [] => none
  | c :: rest =>
    match matchMediaPatternAt (c :: rest) with
    | some s => some s
    | none => searchMediaPattern rest

/-- Try the stories pattern at this exact position: `[^/]+` cannot contain
`/`, so it is forced to the maximal nonempty run before the next slash, then
the greedy `(\d+)` capture is the maximal nonempty digit run. -/
def matchStoriesPatternAt (l : List Char) : Option String :=
  match dropLit "instagram.com/stories/".data l with
  | none => none
  | some r =>
    let seg := r.takeWhile (fun c => c ≠ '/')
    if seg.isEmpty then none
    else
      match r.drop seg.length with
      | '/' :: r2 =>
        let digits := r2.takeWhile Char.isDigit
        if digits.isEmpty then none else some (String.mk digits)
      | _ => none

/-- `re.search` for the stories pattern. -/
def searchStoriesPattern : List Char → Option String
  | [] => none
  | c :: rest =>
    match matchStoriesPatternAt (c :: rest) with
    | some s => some s
    | none => searchStoriesPattern rest

/-! ### `uuid.uuid5` (RFC 4122 name-based UUID via SHA-1), used as the
fallback media id.  32-bit words are `Nat`s kept below `2^32`. -/

/-- `2^32`. -/
def M32 : Nat := 4294967296

/-- 32-bit left rotation. -/
def rotl32 (x n : Nat) : Nat := ((x <<< n) % M32) ||| (x >>> (32 - n))

/-- UTF-8 bytes of a string, as `Nat`s. -/
def utf8EncodeChar (c : Char) : List Nat :=
  let n := c.toNat
  if n < 0x80 then [n]
  else if n < 0x800 then [0xC0 + n / 64, 0x80 + n % 64]
  else if n < 0x10000 then
    [0xE0 + n / 4096, 0x80 + (n / 64) % 64, 0x80 + n % 64]
  else
    [0xF0 + n / 262144, 0x80 + (n / 4096) % 64, 0x80 + (n / 64) % 64, 0x80 + n % 64]

/-- UTF-8 bytes of a string, as `Nat`s. -/
def utf8Bytes (s : String) : List Nat := s.data.flatMap utf8EncodeChar

/-- SHA-1 padding: `0x80`, zeros to 56 mod 64, then the 64-bit big-endian
bit length. -/
def sha1pad (msg : List Nat) : List Nat :=
  let bitLen := msg.length * 8
  let zeros := (56 + 64 - ((msg.length + 1) % 64)) % 64
  msg ++ [0x80] ++ List.replicate zeros 0 ++
    (List.range 8).map (fun i => (bitLen >>> ((7 - i) * 8)) % 256)

/-- Big-endian 32-bit words from bytes (length a multiple of 4). -/
def bytesToWords : List Nat → List Nat
  | b0 :: b1 :: b2 :: b3 :: rest =>
    (((b0 * 256 + b1) * 256 + b2) * 256 + b3) :: bytesToWords rest
  | _ => []

/-- Message-schedule extension to 80 words. -/
def sha1Extend (w : Array Nat) (i fuel : Nat) : Array Nat :=
  match fuel with
  | 0 => w
  | fuel' + 1 =>
    let v := rotl32 ((((w.getD (i - 3) 0) ^^^ (w.getD (i - 8) 0)) ^^^
      (w.getD (i - 14) 0)) ^^^ (w.getD (i - 16) 0)) 1
    sha1Extend (w.push v) (i + 1) fuel'

/-- The 80 compression rounds. -/
def sha1Rounds (w : Array Nat) (i : Nat) (a b c d e : Nat) (fuel : Nat) :
    Nat × Nat × Nat × Nat × Nat :=
  match fuel with
  | 0 => (a, b, c, d, e)
  | fuel' + 1 =>
    let (f, k) :=
      if i < 20 then ((b &&& c) ||| ((M32 - 1 - b) &&& d), 0x5A827999)
      else if i < 40 then ((b ^^^ c) ^^^ d, 0x6ED9EBA1)
      else if i < 60 then (((b &&& c) ||| (b &&& d)) ||| (c &&& d), 0x8F1BBCDC)
      else ((b ^^^ c) ^^^ d, 0xCA62C1D6)
    let temp := (rotl32 a 5 + f + e + k + w.getD i 0) % M32
    sha1Rounds w (i + 1) temp a (rotl32 b 30) c d fuel'

/-- Process one 64-byte chunk into the running state. -/
def sha1Chunk (h : Nat × Nat × Nat × Nat × Nat) (chunk : List Nat) :
    Nat × Nat × Nat × Nat × Nat :=
  let (h0, h1, h2, h3, h4) := h
  let w := sha1Extend (Array.mk (bytesToWords chunk)) 16 64
  let (a, b, c, d, e) := sha1Rounds w 0 h0 h1 h2 h3 h4 80
  ((h0 + a) % M32, (h1 + b) % M32, (h2 + c) % M32, (h3 + d) % M32, (h4 + e) % M32)

/-- Split padded bytes into 64-byte chunks (`fuel` bounds the recursion). -/
def toChunks (fuel : Nat) (bytes : List Nat) : List (List Nat) :=
  match fuel with
  | 0 => []
  | fuel' + 1 =>
    match bytes with
    | [] => []
    | _ => bytes.take 64 :: toChunks fuel' (bytes.drop 64)

/-- Big-endian bytes of a 32-bit word. -/
def wordBytes (x : Nat) : List Nat :=
  [(x >>> 24) % 256, (x >>> 16) % 256, (x >>> 8) % 256, x % 256]

/-- SHA-1 digest (20 bytes) of a byte list. -/
def sha1 (msg : List Nat) : List Nat :=
  let padded := sha1pad msg
  let chunks := toChunks padded.length padded
  let (h0, h1, h2, h3, h4) := chunks.foldl sha1Chunk
    (0x67452301, 0xEFCDAB89, 0x98BADCFE, 0x10325476, 0xC3D2E1F0)
  wordBytes h0 ++ wordBytes h1 ++ wordBytes h2 ++ wordBytes h3 ++ wordBytes h4

/-- `uuid.NAMESPACE_URL.bytes`. -/
def NAMESPACE_URL_BYTES : List Nat :=
  [0x6b, 0xa7, 0xb8, 0x11, 0x9d, 0xad, 0x11, 0xd1,
   0x80, 0xb4, 0x00, 0xc0, 0x4f, 0xd4, 0x30, 0xc8]

/-- Lowercase hex digit. -/
def hexDigit (n : Nat) : Char :=
  if n < 10 then Char.ofNat (48 + n) else Char.ofNat (87 + n)

/-- Two lowercase hex digits of a byte. -/
def byteToHex (b : Nat) : String := String.mk [hexDigit (b / 16), hexDigit (b % 16)]

/-- Lowercase hex of a byte list. -/
def bytesToHex (bs : List Nat) : String := String.join (bs.map byteToHex)

/-- `str(uuid.UUID(bytes=...))`: 8-4-4-4-12 lowercase hex groups. -/
def uuidFormat (bs : List Nat) : String :=
  bytesToHex (bs.take 4) ++ "-" ++ bytesToHex ((bs.drop 4).take 2) ++ "-" ++
  bytesToHex ((bs.drop 6).take 2) ++ "-" ++ bytesToHex ((bs.drop 8).take 2) ++
  "-" ++ bytesToHex ((bs.drop 10).take 6)

/-- `str(uuid.uuid5(uuid.NAMESPACE_URL, url))`: SHA-1 of namespace bytes plus
the UTF-8 name, truncated to 16 bytes with the version (5) and RFC 4122
variant bits set. -/
def uuid5_url (url : String) : String :=
  let digest := (sha1 (NAMESPACE_URL_BYTES ++ utf8Bytes url)).take 16
  let withVersion := digest.mapIdx (fun i b =>
    if i = 6 then (b % 16) + 0x50
    else if i = 8 then (b % 64) + 0x80
    else b)
  uuidFormat withVersion

/-- `extract_media_id(url)` (views.py lines 20-36): the two patterns in
order, then the uuid5 fallback. -/
def extract_media_id (url : String) : String :=
  match searchMediaPattern url.data with
  | some code => code
  | none =>
    match searchStoriesPattern url.data with
    | some sid => sid
    | none => uuid5_url url

/-! ## `src/songs/views.py`: the three views -/

/-- The response of `FindSongView.post`. -/
inductive PostResponse
  | badRequest (error_code message : String)      -- HTTP 400
  | cachedOk (data : SongSearch)                  -- HTTP 200, cached result
  | accepted (task_id : String)                   -- HTTP 202, task queued
deriving DecidableEq, Repr

/-- Result of `FindSongView.post`: the stores afterwards, the response, and
the Celery submission (`identify_song_task.delay(task_id, url, media_id)`),
if any. -/
structure PostResult where
  store : Store
  response : PostResponse
  queued : Option (String × String × String)
deriving DecidableEq, Repr

/-- `SongSearch.increment_search_count` (models.py lines 45-48). -/
def increment_search_count (songs : List SongSearch) (mid : String) :
    List SongSearch :=
  songs.map (fun s =>
    if s.igMediaId == mid then { s with searchCount := s.searchCount + 1 } else s)

/-- `FindSongView.post` (views.py lines 48-97): validate, check the cache,
otherwise create a Pending task record and queue the Celery task.  The fresh
`uuid4` task id is an input. -/
def find_song_post (st : Store) (url : String) (new_task_id : String) : PostResult :=
  if !(validate_url url) then
    ⟨st, .badRequest "INVALID_URL"
      "Invalid Instagram URL. Please provide a valid Instagram Reel, Post, or Story URL.",
     none⟩
  else
    let media_id := extract_media_id url
    match findSongByMediaId st.songs media_id with
    | some cached =>
      ⟨{ st with songs := increment_search_count st.songs media_id },
       .cachedOk { cached with searchCount := cached.searchCount + 1 }, none⟩
    | none =>
      let rec0 : TaskRecord :=
        { taskId := new_task_id, status := Status.pending, songSearch := none,
          errorCode := "", errorMessage := "" }
      ⟨{ st with tasks := st.tasks ++ [rec0] }, .accepted new_task_id,
       some (new_task_id, url, media_id)⟩

/-- The response of `TaskStatusView.get`, mirroring the response dict. -/
structure PollData where
  success : Bool
  status : Option Status
  data : Option SongSearch
  error_code : Option String
  message : Option String
deriving DecidableEq, Repr

/-- `TaskStatusView.get` (views.py lines 107-135): a pure read of the stores. -/
def task_status_get (st : Store) (task_id : String) : PollData :=
  match findTask st task_id with
  | none =>
    { success := false, status := none, data := none,
      error_code := some "TASK_NOT_FOUND", message := some "Task not found." }
  | some trec =>
    let base : PollData :=
      { success := true, status := some trec.status, data := none,
        error_code := none, message := none }
    if trec.status = Status.completed then
      match trec.songSearch with
      | some mid => { base with data := findSongByMediaId st.songs mid }
      | none =>
        { base with
          error_code := some "NO_SONG_FOUND"
          message := some "No song was identified in this content." }
    else if trec.status = Status.failed then
      { base with
        success := false
        error_code := some (if trec.errorCode ≠ "" then trec.errorCode else "UNKNOWN_ERROR")
        message := some (if trec.errorMessage ≠ "" then trec.errorMessage else "An error occurred.") }
    else base

/-- The ordering used by `order_by('-search_count')`: `search_count`
descending (ties in an unspecified stable order). -/
def countDescRel (a b : SongSearch) : Prop := b.searchCount ≤ a.searchCount

instance : DecidableRel countDescRel := fun a b =>
  inferInstanceAs (Decidable (b.searchCount ≤ a.searchCount))

instance : IsTotal SongSearch countDescRel :=
  ⟨fun a b => (Nat.le_total b.searchCount a.searchCount).imp id id⟩

instance : IsTrans SongSearch countDescRel :=
  ⟨fun _ _ _ h1 h2 => Nat.le_trans h2 h1⟩

/-- Stable sort by `search_count` descending (`order_by('-search_count')`). -/
def sortByCountDesc (l : List SongSearch) : List SongSearch :=
  List.insertionSort countDescRel l

/-- The model field `song_title` is non-nullable (`blank=True, default=''`),
so `filter(song_title__isnull=False).exclude(song_title='')` is just the
non-empty-title filter. -/
def hasTitle (s : SongSearch) : Bool := s.songTitle ≠ ""

/-- `StatsView.get` (views.py lines 145-163): the top 10 non-empty-title
records by `search_count` descending, the sum of `search_count` over ALL
records (the aggregate is not filtered by title), and the count of records
with a non-empty title. -/
def stats_get (songs : List SongSearch) : List SongSearch × Nat × Nat :=
  let trending := (sortByCountDesc (songs.filter hasTitle)).take 10
  let total_searches := (songs.map (fun s => s.searchCount)).sum
  let unique_songs := (songs.filter (fun s => s.songTitle ≠ "")).length
  (trending, total_searches, unique_songs)

/-! ## Concrete fixtures for the counterexample traces -/

/-- A freshly created task record (as `FindSongView.post` creates it). -/
def freshTask (tid : String) : TaskRecord :=
  { taskId := tid, status := Status.pending, songSearch := none,
    errorCode := "", errorMessage := "" }

/-- A store holding one pending task `t1` and nothing else. -/
def st0 : Store := { songs := [], tasks := [freshTask "t1"], files := [] }

/-- A supported reel URL. -/
def url1 : String := "https://instagram.com/reel/ABC123/"

/-- Extraction environment where everything succeeds on the first attempt
(yt-dlp writes `vid1.mp3`, the ffmpeg trim works). -/
def goodExtract : ExtractEnv :=
  { attempts := fun _ => .ok "vid1", downloadOk := true, downloadErrMsg := "",
    downloadedExt := "mp3", trimOk := true }

/-- Extraction environment whose metadata attempts always fail with a
transient (retryable) download error. -/
def dlFailExtract : ExtractEnv :=
  { attempts := fun _ => .dlErr "boom", downloadOk := true, downloadErrMsg := "",
    downloadedExt := "mp3", trimOk := true }

/-- Extraction environment whose first attempt reports that the content does
not exist. -/
def notFoundExtract : ExtractEnv :=
  { attempts := fun _ => .dlErr "HTTP Error 404: not found", downloadOk := true,
    downloadErrMsg := "", downloadedExt := "mp3", trimOk := true }

/-- Extraction environment where yt-dlp downloads the media as `vid1.ogg`,
an extension outside the `.mp3/.m4a/.mp4/.webm` candidate list. -/
def oggExtract : ExtractEnv :=
  { attempts := fun _ => .ok "vid1", downloadOk := true, downloadErrMsg := "",
    downloadedExt := "ogg", trimOk := true }

/-- A recognition match: "Song X" by "Artist Y". -/
def track1 : Track :=
  { title := "Song X", subtitle := "Artist Y", key := "k1",
    url := "https://www.shazam.com/track/k1", coverart := "cov.jpg",
    background := "bg.jpg", hubOptions := [], hubProviders := [] }

/-- Shazam environment returning a match. -/
def matchShazam : ShazamEnv :=
  { apiKeyConfigured := true, response := .httpResp 200 (.dictWithTrack track1) "" }

/-- Shazam environment returning no match. -/
def noMatchShazam : ShazamEnv :=
  { apiKeyConfigured := true, response := .httpResp 200 .emptyBody "" }

/-- Shazam environment failing at the transport level. -/
def netFailShazam : ShazamEnv :=
  { apiKeyConfigured := true, response := .netFail }

/-- Shazam environment rejecting the credentials (HTTP 403). -/
def authFailShazam : ShazamEnv :=
  { apiKeyConfigured := true, response := .httpResp 403 .emptyBody "denied" }

/-- Run environment: extraction and recognition both succeed with a match. -/
def envSuccess : ExtractEnv × ShazamEnv := (goodExtract, matchShazam)

/-- Run environment: extraction succeeds, recognition finds no song. -/
def envNoMatch : ExtractEnv × ShazamEnv := (goodExtract, noMatchShazam)

/-- Run environment: extraction succeeds, recognition fails with a network
error (retryable classification `NETWORK_ERROR`). -/
def envNet : ExtractEnv × ShazamEnv := (goodExtract, netFailShazam)

/-- Run environment: extraction succeeds, recognition rejects credentials
(classification `AUTH_ERROR`). -/
def envAuth : ExtractEnv × ShazamEnv := (goodExtract, authFailShazam)

/-- Run environment: extraction always fails with a retryable kind. -/
def envDlFail : ExtractEnv × ShazamEnv := (dlFailExtract, matchShazam)

/-- Run environment: extraction reports `CONTENT_NOT_FOUND` at once. -/
def envNotFound : ExtractEnv × ShazamEnv := (notFoundExtract, matchShazam)

/-- Run environment: the download produces an unrecognized extension. -/
def envOgg : ExtractEnv × ShazamEnv := (oggExtract, matchShazam)

/-- Environment sequence: the first run hits the network failure, every
re-queued run succeeds with a match. -/
def envNetThenSuccess : Nat → ExtractEnv × ShazamEnv :=
  fun r => if r = 0 then envNet else envSuccess

/-! ## Store lemmas -/

theorem findTask_taskId {st : Store} {tid : String} {r : TaskRecord}
    (h : findTask st tid = some r) : r.taskId = tid := by
  have := List.find?_some h
  exact eq_of_beq this

theorem find?_map_update {tasks : List TaskRecord} {tid : String}
    {r r' : TaskRecord} (h : tasks.find? (fun t => t.taskId == tid) = some r)
    (h' : r'.taskId = tid) :
    (tasks.map (fun t => if t.taskId == r'.taskId then r' else t)).find?
      (fun t => t.taskId == tid) = some r' := by
  induction tasks with
  | nil => simp at h
  | cons x xs ih =>
    simp only [List.map_cons]
    by_cases hx : (x.taskId == tid) = true
    · have hx' : (x.taskId == r'.taskId) = true := by rw [h']; exact hx
      rw [if_pos hx']
      have hr' : (r'.taskId == tid) = true := by simp [h']
      simp only [List.find?_cons, hr']
    · have hxf : (x.taskId == tid) = false := by simpa using hx
      have hx' : ¬(x.taskId == r'.taskId) = true := by rw [h']; exact hx
      rw [if_neg hx']
      simp only [List.find?_cons, hxf] at h ⊢
      exact ih h

theorem findTask_saveTask {st : Store} {tid : String} {r r' : TaskRecord}
    (h : findTask st tid = some r) (h' : r'.taskId = tid) :
    findTask (saveTask st r') tid = some r' :=
  find?_map_update h h'

theorem findTask_setFiles (st : Store) (f : List String) (tid : String) :
    findTask { st with files := f } tid = findTask st tid := rfl

theorem findTask_setSongs (st : Store) (s : List SongSearch) (tid : String) :
    findTask { st with songs := s } tid = findTask st tid := rfl

theorem handleFailure_found {st : Store} {tid msg : String}
    {events : List PipeEvent} {log : List TaskRecord} {att : Nat}
    {r1 : TaskRecord} {code emsg : String} (h : findTask st tid = some r1)
    (hp : parse_error_code msg = (code, emsg)) :
    handleFailure st tid msg events log att =
      (let recF := { r1 with
        status := Status.failed
        errorCode := code
        errorMessage := emsg }
       if non_retryable_errors.contains code then
         ⟨saveTask st recF, .failedReturn code emsg, events, log ++ [recF], att⟩
       else
         ⟨saveTask st recF, .retryRaised msg, events, log ++ [recF], att⟩) := by
  simp only [handleFailure, hp, h]

/-- One `identify_song_task` invocation on an existing record: the record
writes are exactly a Processing write followed by one terminal write, the
terminal write is what is stored afterwards, and the terminal write's fields
are determined by the outcome.  In particular the song reference is written
only by a successful-match completion, the error fields are written only by
the no-match completion (`NO_SONG_FOUND`) and by failure writes, and a
successful-match completion leaves the previous error fields untouched. -/
theorem identify_song_task_spec (env : ExtractEnv × ShazamEnv) (st : Store)
    (tid url mid : String) (r0 : TaskRecord) (h : findTask st tid = some r0) :
    ∃ term : TaskRecord,
      (identify_song_task env st tid url mid).log =
        [{ r0 with status := Status.processing }, term] ∧
      findTask (identify_song_task env st tid url mid).store tid = some term ∧
      term.taskId = tid ∧
      (term.status = Status.completed ∨ term.status = Status.failed) ∧
      (∀ m, (identify_song_task env st tid url mid).outcome = .retryRaised m →
        term.status = Status.failed ∧ term.songSearch = r0.songSearch ∧
        term.errorCode = (parse_error_code m).1 ∧
        non_retryable_errors.contains (parse_error_code m).1 = false) ∧
      (∀ c m, (identify_song_task env st tid url mid).outcome = .failedReturn c m →
        term.status = Status.failed ∧ term.songSearch = r0.songSearch ∧
        term.errorCode = c ∧ non_retryable_errors.contains c = true) ∧
      ((identify_song_task env st tid url mid).outcome = .done true →
        term.status = Status.completed ∧ term.songSearch = some mid ∧
        term.errorCode = r0.errorCode ∧ term.errorMessage = r0.errorMessage) ∧
      ((identify_song_task env st tid url mid).outcome = .done false →
        term.status = Status.completed ∧ term.songSearch = r0.songSearch ∧
        term.errorCode = "NO_SONG_FOUND") := by
  have htid := findTask_taskId h
  have h1 : findTask (saveTask st { r0 with status := Status.processing }) tid =
      some { r0 with status := Status.processing } :=
    findTask_saveTask h (by simpa using htid)
  simp only [identify_song_task, h]
  generalize hex :
    extract_audio_from_instagram env.1 url
      (saveTask st { r0 with status := Status.processing }).files = ex
  obtain ⟨exres, exfiles, exevents, exatt⟩ := ex
  have h2 : findTask
      { saveTask st { r0 with status := Status.processing } with files := exfiles }
      tid = some { r0 with status := Status.processing } := h1
  rcases exres with msg | op
  · -- extraction raised
    rcases hp : parse_error_code msg with ⟨code, emsg⟩
    dsimp only at h2 ⊢
    rw [handleFailure_found h2 hp]
    by_cases hc : non_retryable_errors.contains code
    · simp only [hc, if_true]
      refine ⟨{ taskId := r0.taskId, status := Status.failed,
                songSearch := r0.songSearch, errorCode := code,
                errorMessage := emsg },
        rfl, findTask_saveTask h2 (by simpa using htid), htid,
        Or.inr rfl, ?_, ?_, ?_, ?_⟩
      · intro m hm; simp at hm
      · intro c m hcm
        have hcm' : code = c ∧ emsg = m := by simpa using hcm
        obtain ⟨hc1, _⟩ := hcm'
        subst hc1
        exact ⟨rfl, rfl, rfl, hc⟩
      · intro hd; simp at hd
      · intro hd; simp at hd
    · simp only [hc, if_false]
      refine ⟨{ taskId := r0.taskId, status := Status.failed,
                songSearch := r0.songSearch, errorCode := code,
                errorMessage := emsg },
        rfl, findTask_saveTask h2 (by simpa using htid), htid,
        Or.inr rfl, ?_, ?_, ?_, ?_⟩
      · intro m hm
        have hm' : msg = m := by simpa using hm
        subst hm'
        rw [hp]
        exact ⟨rfl, rfl, rfl, by simpa using hc⟩
      · intro c m hcm; simp at hcm
      · intro hd; simp at hd
      · intro hd; simp at hd
  · rcases op with _ | audio_path
    · -- extraction returned None: "Failed to extract audio from Instagram URL"
      rcases hp : parse_error_code "Failed to extract audio from Instagram URL"
        with ⟨code, emsg⟩
      have hpv : parse_error_code "Failed to extract audio from Instagram URL" =
          ("PROCESSING_ERROR", "Failed to extract audio from Instagram URL") := by
        decide
      have hcode : code = "PROCESSING_ERROR" :=
        congrArg Prod.fst (hp.symm.trans hpv)
      have hc : non_retryable_errors.contains code = false := by
        rw [hcode]; decide
      dsimp only at h2 ⊢
      rw [handleFailure_found h2 hp]
      simp only [hc, Bool.false_eq_true, if_false]
      refine ⟨{ taskId := r0.taskId, status := Status.failed,
                songSearch := r0.songSearch, errorCode := code,
                errorMessage := emsg },
        rfl, findTask_saveTask h2 (by simpa using htid), htid,
        Or.inr rfl, ?_, ?_, ?_, ?_⟩
      · intro m hm
        have hm' : "Failed to extract audio from Instagram URL" = m := by
          simpa using hm
        subst hm'
        rw [hp]
        exact ⟨rfl, rfl, rfl, by simpa using hc⟩
      · intro c m hcm; simp at hcm
      · intro hd; simp at hd
      · intro hd; simp at hd
    · -- extraction succeeded with an audio path
      dsimp only at h2 ⊢
      rcases hsh : identify_song_with_shazam env.2 audio_path exfiles with msg | tr
      · -- recognition raised
        rcases hp : parse_error_code msg with ⟨code, emsg⟩
        have h3 : findTask
            { songs := (saveTask st { r0 with status := Status.processing }).songs,
              tasks := (saveTask st { r0 with status := Status.processing }).tasks,
              files := exfiles.erase audio_path } tid =
            some { r0 with status := Status.processing } := h1
        dsimp only
        rw [handleFailure_found h3 hp]
        by_cases hc : non_retryable_errors.contains code
        · simp only [hc, if_true]
          refine ⟨{ taskId := r0.taskId, status := Status.failed,
                    songSearch := r0.songSearch, errorCode := code,
                    errorMessage := emsg },
            rfl, findTask_saveTask h3 (by simpa using htid), htid,
            Or.inr rfl, ?_, ?_, ?_, ?_⟩
          · intro m hm; simp at hm
          · intro c m hcm
            have hcm' : code = c ∧ emsg = m := by simpa using hcm
            obtain ⟨hc1, _⟩ := hcm'
            subst hc1
            exact ⟨rfl, rfl, rfl, hc⟩
          · intro hd; simp at hd
          · intro hd; simp at hd
        · simp only [hc, if_false]
          refine ⟨{ taskId := r0.taskId, status := Status.failed,
                    songSearch := r0.songSearch, errorCode := code,
                    errorMessage := emsg },
            rfl, findTask_saveTask h3 (by simpa using htid), htid,
            Or.inr rfl, ?_, ?_, ?_, ?_⟩
          · intro m hm
            have hm' : msg = m := by simpa using hm
            subst hm'
            rw [hp]
            exact ⟨rfl, rfl, rfl, by simpa using hc⟩
          · intro c m hcm; simp at hcm
          · intro hd; simp at hd
          · intro hd; simp at hd
      · rcases tr with _ | track
        · -- no match: completed with NO_SONG_FOUND
          dsimp only
          refine ⟨{ taskId := r0.taskId, status := Status.completed,
                    songSearch := r0.songSearch, errorCode := "NO_SONG_FOUND",
                    errorMessage := "No song was identified in this audio." },
            rfl, ?_, htid, Or.inl rfl, ?_, ?_, ?_, ?_⟩
          · exact findTask_saveTask h2 (by simpa using htid)
          · intro m hm; simp at hm
          · intro c m hcm; simp at hcm
          · intro hd; simp at hd
          · intro _; exact ⟨rfl, rfl, rfl⟩
        · -- match: completed with the song reference
          dsimp only
          refine ⟨{ taskId := r0.taskId, status := Status.completed,
                    songSearch := some mid, errorCode := r0.errorCode,
                    errorMessage := r0.errorMessage },
            rfl, ?_, htid, Or.inl rfl, ?_, ?_, ?_, ?_⟩
          · exact findTask_saveTask h2 (by simpa using htid)
          · intro m hm; simp at hm
          · intro c m hcm; simp at hcm
          · intro _; exact ⟨rfl, rfl, rfl, rfl⟩
          · intro hd; simp at hd

/-! ## Further concrete fixtures -/

/-- Store after submitting `url1` to an empty system (task `t1` created). -/
def stAfterFirstPost : Store :=
  (find_song_post { songs := [], tasks := [], files := [] } url1 "t1").store

/-- Store after the queued run completes with no match. -/
def stAfterNoMatchRun : Store :=
  (identify_song_task envNoMatch stAfterFirstPost "t1" url1 "ABC123").store

/-- An Instagram audio-page URL, one of the "unsupported" shapes. -/
def reelsAudioUrl : String := "https://www.instagram.com/reels/audio/1234/"

/-- An untitled cached record with 5 searches. -/
def songNoTitle : SongSearch :=
  { igMediaId := "m1", igUrl := "u1", songTitle := "", artistName := "",
    albumArtwork := "", spotifyLink := "", appleMusicLink := "",
    shazamTrackId := "", shazamUrl := "", searchCount := 5 }

/-- A titled cached record with 2 searches. -/
def songTitled : SongSearch :=
  { igMediaId := "m2", igUrl := "u2", songTitle := "Song A", artistName := "B",
    albumArtwork := "", spotifyLink := "", appleMusicLink := "",
    shazamTrackId := "", shazamUrl := "", searchCount := 2 }

/-! ## Claim counterexamples -/

/-- **C1** (counterexample).  A run that fails with the retryable
`NETWORK_ERROR` classification while re-queue attempts remain writes the
record `Failed` before `raise self.retry` (tasks.py lines 142-153), and the
re-queued run writes it back to `Processing` and then `Completed`: the write
sequence is Processing, Failed, Processing, Completed.  This contradicts the
claimed Processing -> Processing transition "without ever passing through
Failed" and shows a record whose status was written again after holding a
terminal status value. -/
theorem c1_counterexample :
    (identify_song_task envNet st0 "t1" url1 "ABC123").outcome =
      .retryRaised "NETWORK_ERROR: Failed to connect to Shazam API" ∧
    ((identify_song_pipeline envNetThenSuccess st0 "t1" url1 "ABC123").log.map
      (fun w => w.status)) =
      [Status.processing, Status.failed, Status.processing, Status.completed] ∧
    (identify_song_pipeline envNetThenSuccess st0 "t1" url1 "ABC123").runs = 2 := by
  decide

/-- **C2** (counterexample).  A task that fails retryably (`NETWORK_ERROR`)
and succeeds on the re-queued attempt ends `Completed` with a song reference
AND with the stale error fields still populated — the success path
(tasks.py lines 103-106) never clears `error_code`/`error_message`. -/
theorem c2_counterexample :
    findTask (identify_song_pipeline envNetThenSuccess st0 "t1" url1 "ABC123").store
      "t1" =
      some { taskId := "t1", status := Status.completed,
             songSearch := some "ABC123", errorCode := "NETWORK_ERROR",
             errorMessage := "Failed to connect to Shazam API" } := by
  decide

/-- **C3** (counterexample).  `AUTH_ERROR` is not in the `non_retryable_errors`
list (tasks.py line 133), so a pipeline whose recognition step always answers
HTTP 403 is re-queued three times — four runs in total, not one — before it is
finally Failed with `AUTH_ERROR`.  This refutes "gives up immediately ...
performing zero additional pipeline attempts". -/
theorem c3_counterexample :
    (identify_song_task envAuth st0 "t1" url1 "ABC123").outcome =
      .retryRaised "AUTH_ERROR: Shazam 403. Body: denied" ∧
    (identify_song_pipeline (fun _ => envAuth) st0 "t1" url1 "ABC123").runs = 4 ∧
    findTask (identify_song_pipeline (fun _ => envAuth) st0 "t1" url1 "ABC123").store
      "t1" =
      some { taskId := "t1", status := Status.failed, songSearch := none,
             errorCode := "AUTH_ERROR",
             errorMessage := "Shazam 403. Body: denied" } := by
  decide

/-- **C4** (counterexample).  With a pipeline that always fails with the
retryable `DOWNLOAD_ERROR` kind, the Task Record already holds status Failed
after the very first of the four runs (tasks.py line 144 runs before the
retry decision), so the record does not transition to Failed only "after
exactly the configured attempt ceiling, never fewer". -/
theorem c4_counterexample :
    (findTask (identify_song_task envDlFail st0 "t1" url1 "ABC123").store "t1").map
      (fun w => w.status) = some Status.failed ∧
    (identify_song_task envDlFail st0 "t1" url1 "ABC123").outcome =
      .retryRaised "DOWNLOAD_ERROR: boom" ∧
    (identify_song_pipeline (fun _ => envDlFail) st0 "t1" url1 "ABC123").runs = 4 := by
  decide

/-- **C6** (counterexample).  A first submission whose pipeline completes
with no match (`NO_SONG_FOUND`) creates no Item Record, so resubmitting the
same URL after the first task completed is a cache miss that queues a second
pipeline run — refuting "submitting the same source URL twice after the
first completed never spawns a second pipeline run". -/
theorem c6_counterexample :
    (findTask stAfterNoMatchRun "t1").map (fun w => w.status) =
      some Status.completed ∧
    stAfterNoMatchRun.songs = [] ∧
    (find_song_post stAfterNoMatchRun url1 "t2").queued =
      some ("t2", url1, "ABC123") := by
  decide

/-- **C7** (counterexample).  When yt-dlp downloads the media as `vid1.ogg`
— an extension outside the `.mp3/.m4a/.mp4/.webm` candidate list of
instagram.py lines 156-164 — extraction returns None without deleting the
file, the task raises before `audio_path` is set, the `finally` block is a
no-op, and the re-queued run leaves the artifact behind. -/
theorem c7_counterexample :
    (identify_song_task envOgg st0 "t1" url1 "ABC123").store.files = ["vid1.ogg"] ∧
    (identify_song_task envOgg st0 "t1" url1 "ABC123").outcome =
      .retryRaised "Failed to extract audio from Instagram URL" := by
  decide

/-- **C8** (counterexample).  `https://www.instagram.com/reels/audio/1234/`
matches the unsupported shape `/reels/audio/` but also matches the
serializer's first URL pattern (a `re.match` prefix match), so the
submission does NOT fail synchronously: a Task Record is created and a
pipeline run is queued; the `INVALID_URL` classification only happens later,
inside the queued run. -/
theorem c8_counterexample :
    strContains reelsAudioUrl "/reels/audio/" = true ∧
    validate_url reelsAudioUrl = true ∧
    (find_song_post { songs := [], tasks := [], files := [] } reelsAudioUrl
      "t1").queued = some ("t1", reelsAudioUrl, "audio") ∧
    (find_song_post { songs := [], tasks := [], files := [] } reelsAudioUrl
      "t1").store.tasks = [freshTask "t1"] := by
  decide

/-- **C9** (counterexample).  `total_searches` aggregates `search_count`
over ALL records (views.py lines 154-156, no title filter): with an
untitled record of count 5 and a titled record of count 2 the code answers
7, while aggregating "over exactly the records with a non-empty title"
would answer 2. -/
theorem c9_counterexample :
    (stats_get [songNoTitle, songTitled]).2.1 = 7 ∧
    (([songNoTitle, songTitled].filter hasTitle).map
      (fun s => s.searchCount)).sum = 2 ∧
    (7 : Nat) ≠ 2 := by
  decide

/-! ## C10: media-id derivation -/

theorem mk_ne_empty {code : List Char} (hc : code.isEmpty = false) :
    String.mk code ≠ "" := by
  cases code with
  | nil => simp at hc
  | cons c cs =>
    intro h
    have := congrArg String.data h
    simp at this

theorem tryMediaAlt_ne_empty {seg : String} {r : List Char} {s : String}
    (h : tryMediaAlt seg r = some s) : s ≠ "" := by
  simp only [tryMediaAlt] at h
  split at h
  · split at h
    · exact absurd h (by simp)
    · injection h with h'
      rw [← h']
      exact mk_ne_empty (by rename_i hcode; simpa using hcode)
  · exact absurd h (by simp)

theorem matchMediaPatternAt_ne_empty {l : List Char} {s : String}
    (h : matchMediaPatternAt l = some s) : s ≠ "" := by
  simp only [matchMediaPatternAt] at h
  split at h
  · exact absurd h (by simp)
  · split at h
    · rename_i heq
      injection h with h'
      exact h' ▸ tryMediaAlt_ne_empty heq
    · split at h
      · rename_i heq
        injection h with h'
        exact h' ▸ tryMediaAlt_ne_empty heq
      · exact tryMediaAlt_ne_empty h

theorem searchMediaPattern_ne_empty {l : List Char} {s : String}
    (h : searchMediaPattern l = some s) : s ≠ "" := by
  induction l with
  | nil => simp [searchMediaPattern] at h
  | cons c rest ih =>
    rw [searchMediaPattern] at h
    split at h
    · rename_i heq
      injection h with h'
      exact h' ▸ matchMediaPatternAt_ne_empty heq
    · exact ih h

theorem matchStoriesPatternAt_ne_empty {l : List Char} {s : String}
    (h : matchStoriesPatternAt l = some s) : s ≠ "" := by
  simp only [matchStoriesPatternAt] at h
  split at h
  · exact absurd h (by simp)
  · split at h
    · exact absurd h (by simp)
    · split at h
      · split at h
        · exact absurd h (by simp)
        · injection h with h'
          rw [← h']
          exact mk_ne_empty (by rename_i hdig; simpa using hdig)
      · exact absurd h (by simp)

theorem searchStoriesPattern_ne_empty {l : List Char} {s : String}
    (h : searchStoriesPattern l = some s) : s ≠ "" := by
  induction l with
  | nil => simp [searchStoriesPattern] at h
  | cons c rest ih =>
    rw [searchStoriesPattern] at h
    split at h
    · rename_i heq
      injection h with h'
      exact h' ▸ matchStoriesPatternAt_ne_empty heq
    · exact ih h

theorem string_data_append (a b : String) : (a ++ b).data = a.data ++ b.data := by
  cases a; cases b; rfl

theorem uuidFormat_ne_empty (bs : List Nat) : uuidFormat bs ≠ "" := by
  intro h
  have h2 := congrArg String.data h
  simp only [uuidFormat, string_data_append] at h2
  simp at h2

theorem uuid5_url_ne_empty (url : String) : uuid5_url url ≠ "" :=
  uuidFormat_ne_empty _

/-- **C10**.  The canonical-item-ID derivation is a total deterministic
function of the URL string: it always returns a non-empty id; the first
pattern (`instagram.com/(p|reel|reels)/<code>`) takes precedence, the
numeric story id is used only when the first pattern matches nowhere, and a
URL matching neither pattern falls back to `uuid5(NAMESPACE_URL, url)`.
Concrete instances exercise each branch, including a URL where both
patterns occur and the first-pattern capture wins. -/
theorem c10_theorem :
    (∀ url, extract_media_id url ≠ "") ∧
    (∀ url s, searchMediaPattern url.data = some s → extract_media_id url = s) ∧
    (∀ url s, searchMediaPattern url.data = none →
      searchStoriesPattern url.data = some s → extract_media_id url = s) ∧
    (∀ url, searchMediaPattern url.data = none →
      searchStoriesPattern url.data = none →
      extract_media_id url = uuid5_url url) ∧
    extract_media_id "https://instagram.com/reel/ABC123/" = "ABC123" ∧
    extract_media_id "https://www.instagram.com/p/XY_z-9/?x=1" = "XY_z-9" ∧
    extract_media_id "https://instagram.com/stories/user.name/3141592653/" =
      "3141592653" ∧
    extract_media_id "https://instagram.com/stories/u/99/?next=instagram.com/p/AAA" =
      "AAA" ∧
    (∀ u1 u2 : String, u1 = u2 → extract_media_id u1 = extract_media_id u2) := by
  refine ⟨?_, ?_, ?_, ?_, by decide, by decide, by decide, by decide,
    fun u1 u2 h => h ▸ rfl⟩
  · intro url
    rw [extract_media_id]
    split
    · rename_i heq
      exact searchMediaPattern_ne_empty heq
    · split
      · rename_i heq
        exact searchStoriesPattern_ne_empty heq
      · exact uuid5_url_ne_empty url
  · intro url s h
    rw [extract_media_id, h]
  · intro url s h1 h2
    rw [extract_media_id, h1, h2]
  · intro url h1 h2
    rw [extract_media_id, h1, h2]

/-- **C10** (witness).  The theorem instantiated at concrete URLs: a
pattern-matching URL and a non-matching URL (uuid5 fallback), with the
hypotheses discharged by evaluation. -/
theorem c10_witness :
    extract_media_id "http://example.com/a" ≠ "" ∧
    extract_media_id "http://example.com/a" = uuid5_url "http://example.com/a" ∧
    extract_media_id "https://instagram.com/reel/ABC123/" = "ABC123" :=
  ⟨c10_theorem.1 "http://example.com/a",
   c10_theorem.2.2.2.1 "http://example.com/a" (by decide) (by decide),
   c10_theorem.2.1 "https://instagram.com/reel/ABC123/" "ABC123" (by decide)⟩

/-! ## C9: trending statistics -/

theorem sum_map_filter_split (l : List SongSearch) :
    ((l.filter hasTitle).map (fun s => s.searchCount)).sum +
      ((l.filter (fun s => !(hasTitle s))).map (fun s => s.searchCount)).sum =
      (l.map (fun s => s.searchCount)).sum := by
  induction l with
  | nil => simp
  | cons x xs ih =>
    by_cases hx : hasTitle x
    · simp [List.filter_cons, hx]
      omega
    · have hx' : hasTitle x = false := by simpa using hx
      simp [List.filter_cons, hx']
      omega

/-- **C9** (amended).  `StatsView.get` returns the top 10 records with a
non-empty title ordered by `search_count` descending, and the non-empty-title
distinct count; but `total_searches` sums `search_count` over ALL records —
titled and untitled alike — not only over the records with a non-empty
title. -/
theorem c9_amended (songs : List SongSearch) :
    (stats_get songs).1 = (sortByCountDesc (songs.filter hasTitle)).take 10 ∧
    (stats_get songs).2.1 =
      ((songs.filter hasTitle).map (fun s => s.searchCount)).sum +
      ((songs.filter (fun s => !(hasTitle s))).map (fun s => s.searchCount)).sum ∧
    (stats_get songs).2.2 = (songs.filter hasTitle).length ∧
    (stats_get songs).1.length = min 10 (songs.filter hasTitle).length ∧
    (∀ s ∈ (stats_get songs).1, s ∈ songs ∧ hasTitle s = true) ∧
    (stats_get songs).1.Sorted countDescRel := by
  refine ⟨rfl, ?_, rfl, ?_, ?_, ?_⟩
  · exact (sum_map_filter_split songs).symm
  · show ((sortByCountDesc (songs.filter hasTitle)).take 10).length = _
    rw [List.length_take, sortByCountDesc,
      (List.perm_insertionSort countDescRel (songs.filter hasTitle)).length_eq]
  · intro s hs
    have h1 : s ∈ sortByCountDesc (songs.filter hasTitle) :=
      (List.take_sublist _ _).mem hs
    have h2 : s ∈ songs.filter hasTitle :=
      (List.perm_insertionSort countDescRel _).mem_iff.mp h1
    exact ⟨(List.mem_filter.mp h2).1, (List.mem_filter.mp h2).2⟩
  · exact List.Pairwise.sublist (List.take_sublist _ _)
      (List.sorted_insertionSort countDescRel (songs.filter hasTitle))

/-- **C9** (witness).  The amended theorem at the two-record store of the
counterexample: the top-10 query, total and distinct count evaluated, and
the membership clause discharged at the titled record. -/
theorem c9_witness :
    (stats_get [songNoTitle, songTitled]).2.1 =
      (([songNoTitle, songTitled].filter hasTitle).map
        (fun s => s.searchCount)).sum +
      (([songNoTitle, songTitled].filter (fun s => !(hasTitle s))).map
        (fun s => s.searchCount)).sum ∧
    (songTitled ∈ [songNoTitle, songTitled] ∧ hasTitle songTitled = true) :=
  ⟨(c9_amended [songNoTitle, songTitled]).2.1,
   (c9_amended [songNoTitle, songTitled]).2.2.2.2.1 songTitled (by decide)⟩

/-! ## C2: song-reference / error-field exclusivity -/

/-- **C2** (amended).  Within one pipeline invocation, the song reference is
written only by the Completed-with-match transition and the error fields only
by Failed transitions or the Completed-no-match transition; but the
Completed-with-match write does not clear previously written error fields, so
a task that fails retryably and then succeeds ends Completed carrying both a
song reference and the stale error fields (the concrete counterexample).  A
record that starts with clean error fields and no reference cannot acquire
both in a single run. -/
theorem c2_amended (env : ExtractEnv × ShazamEnv) (st : Store)
    (tid url mid : String) (r0 : TaskRecord) (h : findTask st tid = some r0) :
    ∃ term : TaskRecord,
      findTask (identify_song_task env st tid url mid).store tid = some term ∧
      (identify_song_task env st tid url mid).log =
        [{ r0 with status := Status.processing }, term] ∧
      (term.songSearch ≠ r0.songSearch →
        (identify_song_task env st tid url mid).outcome = .done true ∧
        term.status = Status.completed ∧ term.songSearch = some mid) ∧
      (term.errorCode ≠ r0.errorCode →
        term.status = Status.failed ∨
        (term.status = Status.completed ∧ term.errorCode = "NO_SONG_FOUND")) ∧
      ((identify_song_task env st tid url mid).outcome = .done true →
        term.songSearch = some mid ∧ term.errorCode = r0.errorCode ∧
        term.errorMessage = r0.errorMessage) ∧
      (r0.errorCode = "" → r0.songSearch = none → term.songSearch ≠ none →
        term.errorCode = "") := by
  obtain ⟨term, hlog, hfind, _, _, hretry, hfailR, hdT, hdF⟩ :=
    identify_song_task_spec env st tid url mid r0 h
  refine ⟨term, hfind, hlog, ?_, ?_, ?_, ?_⟩
  · intro hne
    rcases hout : (identify_song_task env st tid url mid).outcome with b | ⟨c, m⟩ | m
    · cases b with
      | true => exact ⟨rfl, (hdT hout).1, (hdT hout).2.1⟩
      | false => exact absurd (hdF hout).2.1 hne
    · exact absurd ((hfailR c m hout).2.1) hne
    · exact absurd ((hretry m hout).2.1) hne
  · intro hne
    rcases hout : (identify_song_task env st tid url mid).outcome with b | ⟨c, m⟩ | m
    · cases b with
      | true => exact absurd (hdT hout).2.2.1 hne
      | false => exact Or.inr ⟨(hdF hout).1, (hdF hout).2.2⟩
    · exact Or.inl (hfailR c m hout).1
    · exact Or.inl (hretry m hout).1
  · intro hout
    exact ⟨(hdT hout).2.1, (hdT hout).2.2.1, (hdT hout).2.2.2⟩
  · intro hclean hnone hsome
    rcases hout : (identify_song_task env st tid url mid).outcome with b | ⟨c, m⟩ | m
    · cases b with
      | true => rw [(hdT hout).2.2.1, hclean]
      | false => exact absurd ((hdF hout).2.1.trans hnone) hsome
    · exact absurd ((hfailR c m hout).2.1.trans hnone) hsome
    · exact absurd ((hretry m hout).2.1.trans hnone) hsome

/-- **C2** (witness).  The amended theorem instantiated on the fresh task
store with the successful-match environment. -/
theorem c2_witness :
    ∃ term : TaskRecord,
      findTask (identify_song_task envSuccess st0 "t1" url1 "ABC123").store "t1" =
        some term ∧
      (identify_song_task envSuccess st0 "t1" url1 "ABC123").log =
        [{ freshTask "t1" with status := Status.processing }, term] ∧
      (term.songSearch ≠ (freshTask "t1").songSearch →
        (identify_song_task envSuccess st0 "t1" url1 "ABC123").outcome = .done true ∧
        term.status = Status.completed ∧ term.songSearch = some "ABC123") ∧
      (term.errorCode ≠ (freshTask "t1").errorCode →
        term.status = Status.failed ∨
        (term.status = Status.completed ∧ term.errorCode = "NO_SONG_FOUND")) ∧
      ((identify_song_task envSuccess st0 "t1" url1 "ABC123").outcome = .done true →
        term.songSearch = some "ABC123" ∧
        term.errorCode = (freshTask "t1").errorCode ∧
        term.errorMessage = (freshTask "t1").errorMessage) ∧
      ((freshTask "t1").errorCode = "" → (freshTask "t1").songSearch = none →
        term.songSearch ≠ none → term.errorCode = "") :=
  c2_amended envSuccess st0 "t1" url1 "ABC123" (freshTask "t1") (by decide)

/-! ## C5: non-retryable short-circuit -/

theorem handleFailure_att (st : Store) (tid msg : String) (ev : List PipeEvent)
    (lg : List TaskRecord) (att : Nat) :
    (handleFailure st tid msg ev lg att).extractionAttempts = att ∧
    (handleFailure st tid msg ev lg att).events = ev := by
  rcases hp : parse_error_code msg with ⟨c, em⟩
  simp only [handleFailure, hp]
  rcases hf : findTask st tid with _ | r <;>
    simp only [hf] <;> split <;> exact ⟨rfl, rfl⟩

theorem attemptLoop_notExist {att : Nat → ExtractAttempt} {m' : String}
    (h1 : att 1 = .dlErr m') (h2 : isNotExistErr m' = true) :
    attemptLoop att 1 MAX_RETRIES = (.raised contentNotFoundMsg, [], 1) := by
  show attemptLoop att 1 (9 + 1) = _
  simp only [attemptLoop, h1, h2, if_true]

theorem extract_notExist {env : ExtractEnv} {url : String} {F : List String}
    {m' : String} (hu : hasUnsupportedPattern url = false)
    (h1 : env.attempts 1 = .dlErr m') (h2 : isNotExistErr m' = true) :
    extract_audio_from_instagram env url F =
      { res := .error contentNotFoundMsg, files := F, events := [],
        attempts := 1 } := by
  simp only [extract_audio_from_instagram, hu, Bool.false_eq_true, if_false,
    attemptLoop_notExist h1 h2]

/-- **C5**.  A pipeline run whose failure is classified with a non-retryable
kind returns without `self.retry`: the whole pipeline performs exactly one
run (zero additional attempts), the classified kind is in the
`non_retryable_errors` list, and the record ends Failed carrying that kind.
Moreover a `CONTENT_NOT_FOUND` report from the extraction collaborator on
its first attempt short-circuits the extraction retry loop: exactly one
extraction attempt, no retry sleeps. -/
theorem c5_theorem (envs : Nat → ExtractEnv × ShazamEnv) (st : Store)
    (tid url mid : String) (r0 : TaskRecord) (c m : String)
    (h : findTask st tid = some r0)
    (hout : (identify_song_task (envs 0) st tid url mid).outcome =
      .failedReturn c m) :
    (identify_song_pipeline envs st tid url mid).runs = 1 ∧
    non_retryable_errors.contains c = true ∧
    (∃ term : TaskRecord,
      findTask (identify_song_pipeline envs st tid url mid).store tid =
        some term ∧
      term.status = Status.failed ∧ term.errorCode = c) ∧
    (∀ m', (envs 0).1.attempts 1 = .dlErr m' → isNotExistErr m' = true →
      hasUnsupportedPattern url = false →
      (identify_song_task (envs 0) st tid url mid).extractionAttempts = 1 ∧
      (identify_song_task (envs 0) st tid url mid).events = []) := by
  obtain ⟨term, _, hfind, _, _, _, hfailR, _, _⟩ :=
    identify_song_task_spec (envs 0) st tid url mid r0 h
  have hpipe : identify_song_pipeline envs st tid url mid =
      ⟨(identify_song_task (envs 0) st tid url mid).store, 1,
       (identify_song_task (envs 0) st tid url mid).events,
       (identify_song_task (envs 0) st tid url mid).log,
       [(identify_song_task (envs 0) st tid url mid).extractionAttempts]⟩ := by
    show pipelineGo envs tid url mid 0 (3 + 1) st = _
    rcases hR : identify_song_task (envs 0) st tid url mid with ⟨st', out, ev, lg, att⟩
    rw [hR] at hout
    simp only at hout
    simp only [pipelineGo, hR, hout]
  refine ⟨by rw [hpipe], (hfailR c m hout).2.2.2, ⟨term, ?_, (hfailR c m hout).1,
    (hfailR c m hout).2.2.1⟩, ?_⟩
  · rw [hpipe]
    exact hfind
  · intro m' hatt hne hu
    have hex := @extract_notExist (envs 0).1 url
      ((saveTask st { r0 with status := Status.processing }).files) m' hu hatt
      hne
    simp only [identify_song_task, h, hex]
    exact handleFailure_att _ _ _ _ _ _

/-- **C5** (witness).  The theorem at the content-not-found environment on
the fresh single-task store: one run, `CONTENT_NOT_FOUND` recorded, one
extraction attempt. -/
theorem c5_witness :
    (identify_song_pipeline (fun _ => envNotFound) st0 "t1" url1 "ABC123").runs = 1 ∧
    non_retryable_errors.contains "CONTENT_NOT_FOUND" = true ∧
    (∃ term : TaskRecord,
      findTask (identify_song_pipeline (fun _ => envNotFound) st0 "t1" url1
        "ABC123").store "t1" = some term ∧
      term.status = Status.failed ∧ term.errorCode = "CONTENT_NOT_FOUND") ∧
    (∀ m', (notFoundExtract, matchShazam).1.attempts 1 = .dlErr m' →
      isNotExistErr m' = true → hasUnsupportedPattern url1 = false →
      (identify_song_task envNotFound st0 "t1" url1 "ABC123").extractionAttempts = 1 ∧
      (identify_song_task envNotFound st0 "t1" url1 "ABC123").events = []) :=
  c5_theorem (fun _ => envNotFound) st0 "t1" url1 "ABC123" (freshTask "t1")
    "CONTENT_NOT_FOUND" "The Instagram content does not exist or has been deleted"
    (by decide) (by decide)

/-! ## C6: dedup cache -/

theorem findSong_map_update {songs : List SongSearch} {mid : String}
    {r : SongSearch} (f : SongSearch → SongSearch)
    (hf : ∀ s, (f s).igMediaId = s.igMediaId)
    (h : findSongByMediaId songs mid = some r) :
    findSongByMediaId
      (songs.map (fun s => if s.igMediaId == mid then f s else s)) mid =
      some (f r) := by
  induction songs with
  | nil => simp [findSongByMediaId] at h
  | cons x xs ih =>
    simp only [List.map_cons]
    by_cases hx : (x.igMediaId == mid) = true
    · rw [if_pos hx]
      rw [findSongByMediaId, List.find?_cons, hx] at h
      injection h with h'
      subst h'
      have hfx : ((f x).igMediaId == mid) = true := by
        rw [hf x]; exact hx
      rw [findSongByMediaId, List.find?_cons, hfx]
    · have hxf : (x.igMediaId == mid) = false := by simpa using hx
      rw [if_neg hx]
      rw [findSongByMediaId, List.find?_cons, hxf] at h
      rw [findSongByMediaId, List.find?_cons, hxf]
      exact ih h

theorem findSong_increment {songs : List SongSearch} {mid : String}
    {r : SongSearch} (h : findSongByMediaId songs mid = some r) :
    findSongByMediaId (increment_search_count songs mid) mid =
      some { r with searchCount := r.searchCount + 1 } :=
  findSong_map_update (fun s => { s with searchCount := s.searchCount + 1 })
    (fun _ => rfl) h

theorem findSong_append_new {songs : List SongSearch} {mid : String}
    (h : findSongByMediaId songs mid = none) (new : SongSearch)
    (hnew : new.igMediaId = mid) :
    findSongByMediaId (songs ++ [new]) mid = some new := by
  induction songs with
  | nil =>
    rw [findSongByMediaId]
    simp only [List.nil_append, List.find?_cons]
    have : (new.igMediaId == mid) = true := by simp [hnew]
    rw [this]
  | cons x xs ih =>
    rw [findSongByMediaId, List.find?_cons] at h
    rw [findSongByMediaId, List.cons_append, List.find?_cons]
    rcases hx : (x.igMediaId == mid) with _ | _
    · rw [hx] at h
      exact ih h
    · rw [hx] at h
      simp at h

theorem findSong_update_or_create (songs : List SongSearch)
    (mid u t a aw sp ap k su : String) :
    (findSongByMediaId (update_or_create songs mid u t a aw sp ap k su)
      mid).isSome = true := by
  rw [update_or_create]
  rcases hf : findSongByMediaId songs mid with _ | r
  · simp only [hf]
    rw [findSong_append_new hf _ rfl]
    rfl
  · simp only [hf]
    rw [findSong_map_update (fun s =>
      { s with igUrl := u, songTitle := t, artistName := a, albumArtwork := aw,
               spotifyLink := sp, appleMusicLink := ap, shazamTrackId := k,
               shazamUrl := su }) (fun _ => rfl) hf]
    rfl

theorem handleFailure_songs (st : Store) (tid msg : String)
    (ev : List PipeEvent) (lg : List TaskRecord) (att : Nat) :
    (handleFailure st tid msg ev lg att).store.songs = st.songs ∧
    ∀ b, (handleFailure st tid msg ev lg att).outcome ≠ .done b := by
  rcases hp : parse_error_code msg with ⟨c, em⟩
  simp only [handleFailure, hp]
  rcases hf : findTask st tid with _ | r <;> simp only [hf] <;> split <;>
    exact ⟨rfl, by intro b hb; simp at hb⟩

/-- How one run affects the Item-Record (dedup cache) store: a
Completed-with-match run leaves the canonical item id present in the cache;
any other outcome leaves the cache untouched. -/
theorem identify_song_task_songs (env : ExtractEnv × ShazamEnv) (st : Store)
    (tid url mid : String) (r0 : TaskRecord) (h : findTask st tid = some r0) :
    ((identify_song_task env st tid url mid).outcome = .done true →
      (findSongByMediaId (identify_song_task env st tid url mid).store.songs
        mid).isSome = true) ∧
    ((identify_song_task env st tid url mid).outcome ≠ .done true →
      (identify_song_task env st tid url mid).store.songs = st.songs) := by
  simp only [identify_song_task, h]
  generalize hex :
    extract_audio_from_instagram env.1 url
      (saveTask st { r0 with status := Status.processing }).files = ex
  obtain ⟨exres, exfiles, exevents, exatt⟩ := ex
  rcases exres with msg | op
  · dsimp only
    refine ⟨fun hd => absurd hd ((handleFailure_songs _ _ _ _ _ _).2 true),
      fun _ => (handleFailure_songs _ _ _ _ _ _).1⟩
  · rcases op with _ | audio_path
    · dsimp only
      refine ⟨fun hd => absurd hd ((handleFailure_songs _ _ _ _ _ _).2 true),
        fun _ => (handleFailure_songs _ _ _ _ _ _).1⟩
    · dsimp only
      rcases hsh : identify_song_with_shazam env.2 audio_path exfiles with msg | tr
      · dsimp only
        refine ⟨fun hd => absurd hd ((handleFailure_songs _ _ _ _ _ _).2 true),
          fun _ => (handleFailure_songs _ _ _ _ _ _).1⟩
      · rcases tr with _ | track
        · exact ⟨fun hd => by simp at hd, fun _ => rfl⟩
        · exact ⟨fun _ => findSong_update_or_create _ _ _ _ _ _ _ _ _ _,
            fun hne => absurd rfl hne⟩

/-- **C6** (amended).  A submission whose canonical item id is cached
returns the cached record synchronously with `search_count` incremented by
exactly 1, creates no Task Record and queues no pipeline run; a
Completed-with-match run populates the cache for its item id (so a
resubmission is then a cache hit), while every other pipeline outcome —
including Completed-with-no-match — leaves the cache untouched, so a
resubmission after a no-match completion is a cache miss that queues a
second pipeline run. -/
theorem c6_amended :
    (∀ (st : Store) (url tid : String) (r : SongSearch),
      validate_url url = true →
      findSongByMediaId st.songs (extract_media_id url) = some r →
      (find_song_post st url tid).queued = none ∧
      (find_song_post st url tid).store.tasks = st.tasks ∧
      (find_song_post st url tid).response =
        .cachedOk { r with searchCount := r.searchCount + 1 } ∧
      findSongByMediaId (find_song_post st url tid).store.songs
        (extract_media_id url) =
        some { r with searchCount := r.searchCount + 1 }) ∧
    (∀ (env : ExtractEnv × ShazamEnv) (st : Store) (tid url mid : String)
      (r0 : TaskRecord), findTask st tid = some r0 →
      ((identify_song_task env st tid url mid).outcome = .done true →
        (findSongByMediaId (identify_song_task env st tid url mid).store.songs
          mid).isSome = true) ∧
      ((identify_song_task env st tid url mid).outcome ≠ .done true →
        (identify_song_task env st tid url mid).store.songs = st.songs)) ∧
    (∀ (st : Store) (url tid : String),
      validate_url url = true →
      findSongByMediaId st.songs (extract_media_id url) = none →
      (find_song_post st url tid).queued =
        some (tid, url, extract_media_id url) ∧
      (find_song_post st url tid).store.tasks = st.tasks ++ [freshTask tid]) := by
  refine ⟨?_, identify_song_task_songs, ?_⟩
  · intro st url tid r hv hhit
    have hpost : find_song_post st url tid =
        ⟨{ st with songs := increment_search_count st.songs (extract_media_id url) },
         .cachedOk { r with searchCount := r.searchCount + 1 }, none⟩ := by
      simp only [find_song_post, hv, Bool.not_true, Bool.false_eq_true, if_false,
        hhit, increment_search_count]
    rw [hpost]
    exact ⟨rfl, rfl, rfl, findSong_increment hhit⟩
  · intro st url tid hv hmiss
    have hpost : find_song_post st url tid =
        ⟨{ st with tasks := st.tasks ++ [freshTask tid] }, .accepted tid,
         some (tid, url, extract_media_id url)⟩ := by
      simp only [find_song_post, hv, Bool.not_true, Bool.false_eq_true, if_false,
        hmiss, freshTask]
    rw [hpost]
    exact ⟨rfl, rfl⟩

/-- A store caching only `songTitled` (item id `m2`). -/
def stCached : Store := { songs := [songTitled], tasks := [], files := [] }

/-- A reel URL whose canonical item id is `m2`. -/
def urlM2 : String := "https://instagram.com/reel/m2/"

/-- **C6** (witness).  The amended theorem instantiated: a cache hit on a
one-record store increments the count and queues nothing; a successful run
on the fresh task store populates the cache. -/
theorem c6_witness :
    ((find_song_post stCached urlM2 "t9").queued = none ∧
      (find_song_post stCached urlM2 "t9").store.tasks = stCached.tasks ∧
      (find_song_post stCached urlM2 "t9").response =
        .cachedOk { songTitled with searchCount := songTitled.searchCount + 1 } ∧
      findSongByMediaId (find_song_post stCached urlM2 "t9").store.songs
        (extract_media_id urlM2) =
        some { songTitled with searchCount := songTitled.searchCount + 1 }) ∧
    ((identify_song_task envSuccess st0 "t1" url1 "ABC123").outcome =
        .done true →
      (findSongByMediaId (identify_song_task envSuccess st0 "t1" url1
        "ABC123").store.songs "ABC123").isSome = true) :=
  ⟨c6_amended.1 stCached urlM2 "t9" songTitled (by decide) (by decide),
   (c6_amended.2.1 envSuccess st0 "t1" url1 "ABC123" (freshTask "t1")
      (by decide)).1⟩

/-! ## C7: temp-file cleanup -/

theorem string_length_mk (l : List Char) : (String.mk l).length = l.length := rfl

theorem pySplitext_length (p : String) :
    (pySplitext p).1.length + (pySplitext p).2.length = p.length := by
  rw [pySplitext]
  have hle : (p.data.reverse.takeWhile (fun c => c ≠ '.')).length ≤ p.data.length := by
    calc (p.data.reverse.takeWhile (fun c => c ≠ '.')).length
        ≤ p.data.reverse.length := (List.takeWhile_sublist _).length_le
      _ = p.data.length := List.length_reverse _
  split
  · show p.length + ("" : String).length = p.length
    have h0 : ("" : String).length = 0 := rfl
    omega
  · rename_i hne
    have hlt : (p.data.reverse.takeWhile (fun c => c ≠ '.')).length <
        p.data.length := lt_of_le_of_ne hle hne
    simp only [string_length_mk, List.length_take, List.length_cons,
      List.length_reverse]
    have hlen : p.length = p.data.length := rfl
    omega

theorem trim_output_ne (ap : String) :
    ((pySplitext ap).1 ++ "_trimmed" ++ (pySplitext ap).2) ≠ ap := by
  intro h
  have hlen := congrArg String.length h
  rw [String.length_append, String.length_append] at hlen
  have h8 : ("_trimmed" : String).length = 8 := by decide
  have hsum := pySplitext_length ap
  omega

theorem contains_true_iff {α : Type} [BEq α] [LawfulBEq α] {l : List α} {a : α} :
    l.contains a = true ↔ a ∈ l := List.elem_iff

/-! Per-branch evaluation equations for `extract_audio_from_instagram`. -/

theorem extract_invalid {env : ExtractEnv} {url : String} {F : List String}
    (hu : hasUnsupportedPattern url = true) :
    extract_audio_from_instagram env url F =
      { res := .error invalidUrlMsg, files := F, events := [], attempts := 0 } := by
  simp only [extract_audio_from_instagram, hu, if_true]

theorem extract_raised {env : ExtractEnv} {url : String} {F : List String}
    {m : String} {ev : List PipeEvent} {n : Nat}
    (hu : hasUnsupportedPattern url = false)
    (hl : attemptLoop env.attempts 1 MAX_RETRIES = (.raised m, ev, n)) :
    extract_audio_from_instagram env url F =
      { res := .error m, files := F, events := ev, attempts := n } := by
  simp only [extract_audio_from_instagram, hu, Bool.false_eq_true, if_false, hl]

theorem extract_gotNone {env : ExtractEnv} {url : String} {F : List String}
    {ev : List PipeEvent} {n : Nat}
    (hu : hasUnsupportedPattern url = false)
    (hl : attemptLoop env.attempts 1 MAX_RETRIES = (.gotNone, ev, n)) :
    extract_audio_from_instagram env url F =
      { res := .ok none, files := F, events := ev, attempts := n } := by
  simp only [extract_audio_from_instagram, hu, Bool.false_eq_true, if_false, hl]

theorem extract_download_fail {env : ExtractEnv} {url : String} {F : List String}
    {vid : String} {ev : List PipeEvent} {n : Nat}
    (hu : hasUnsupportedPattern url = false)
    (hl : attemptLoop env.attempts 1 MAX_RETRIES = (.success vid, ev, n))
    (hd : env.downloadOk = false) :
    extract_audio_from_instagram env url F =
      { res := .error ("DOWNLOAD_ERROR: Failed to download media: " ++
          env.downloadErrMsg), files := F, events := ev, attempts := n } := by
  simp only [extract_audio_from_instagram, hu, Bool.false_eq_true, if_false, hl, hd]

theorem extract_no_candidate {env : ExtractEnv} {url : String} {F : List String}
    {vid : String} {ev : List PipeEvent} {n : Nat}
    (hu : hasUnsupportedPattern url = false)
    (hl : attemptLoop env.attempts 1 MAX_RETRIES = (.success vid, ev, n))
    (hd : env.downloadOk = true)
    (hc : (["mp3", "m4a", "mp4", "webm"].map (tempFileName vid)).find?
      (fun p => (F ++ [tempFileName vid env.downloadedExt]).contains p) = none) :
    extract_audio_from_instagram env url F =
      { res := .ok none, files := F ++ [tempFileName vid env.downloadedExt],
        events := ev, attempts := n } := by
  simp only [extract_audio_from_instagram, hu, Bool.false_eq_true, if_false,
    hl, hd, if_true, hc]

theorem extract_trim_ok {env : ExtractEnv} {url : String} {F : List String}
    {vid audio_path : String} {ev : List PipeEvent} {n : Nat}
    (hu : hasUnsupportedPattern url = false)
    (hl : attemptLoop env.attempts 1 MAX_RETRIES = (.success vid, ev, n))
    (hd : env.downloadOk = true)
    (hc : (["mp3", "m4a", "mp4", "webm"].map (tempFileName vid)).find?
      (fun p => (F ++ [tempFileName vid env.downloadedExt]).contains p) =
      some audio_path)
    (ht : env.trimOk = true) :
    extract_audio_from_instagram env url F =
      { res := .ok (some ((pySplitext audio_path).1 ++ "_trimmed" ++
          (pySplitext audio_path).2)),
        files := ((F ++ [tempFileName vid env.downloadedExt]) ++
          [(pySplitext audio_path).1 ++ "_trimmed" ++
            (pySplitext audio_path).2]).erase audio_path,
        events := ev, attempts := n } := by
  have hcont : ((F ++ [tempFileName vid env.downloadedExt]).contains
      audio_path) = true := List.find?_some hc
  have hne : (pySplitext audio_path).1 ++ "_trimmed" ++
      (pySplitext audio_path).2 ≠ audio_path := trim_output_ne audio_path
  simp only [extract_audio_from_instagram, hu, Bool.false_eq_true, if_false,
    hl, hd, if_true, hc, trim_audio, hcont, ht]
  rw [if_pos hne]

theorem extract_trim_fallback {env : ExtractEnv} {url : String}
    {F : List String} {vid audio_path : String} {ev : List PipeEvent} {n : Nat}
    (hu : hasUnsupportedPattern url = false)
    (hl : attemptLoop env.attempts 1 MAX_RETRIES = (.success vid, ev, n))
    (hd : env.downloadOk = true)
    (hc : (["mp3", "m4a", "mp4", "webm"].map (tempFileName vid)).find?
      (fun p => (F ++ [tempFileName vid env.downloadedExt]).contains p) =
      some audio_path)
    (ht : env.trimOk = false) :
    extract_audio_from_instagram env url F =
      { res := .ok (some audio_path),
        files := F ++ [tempFileName vid env.downloadedExt],
        events := ev, attempts := n } := by
  have hcont : ((F ++ [tempFileName vid env.downloadedExt]).contains
      audio_path) = true := List.find?_some hc
  simp only [extract_audio_from_instagram, hu, Bool.false_eq_true, if_false,
    hl, hd, if_true, hc, trim_audio, hcont, ht]
  rw [if_neg (by simp)]

/-- File accounting of `extract_audio_from_instagram`: a raised exception
leaves the temp filesystem as it was (in the model failed collaborator calls
write nothing), and a returned audio path is present in the filesystem
afterwards — and is the only temp file when the run started with none. -/
theorem extract_files (env : ExtractEnv) (url : String) (F : List String) :
    (∀ m, (extract_audio_from_instagram env url F).res = .error m →
      (extract_audio_from_instagram env url F).files = F) ∧
    (∀ p, (extract_audio_from_instagram env url F).res = .ok (some p) →
      p ∈ (extract_audio_from_instagram env url F).files ∧
      (F = [] → (extract_audio_from_instagram env url F).files = [p])) := by
  rcases hu : hasUnsupportedPattern url with _ | _
  · rcases hl : attemptLoop env.attempts 1 MAX_RETRIES with ⟨lo, ev, n⟩
    rcases lo with vid | _ | m
    · rcases hd : env.downloadOk with _ | _
      · rw [extract_download_fail hu hl hd]
        exact ⟨fun m _ => rfl, fun p hp => by simp at hp⟩
      · rcases hc : (["mp3", "m4a", "mp4", "webm"].map (tempFileName vid)).find?
          (fun p => (F ++ [tempFileName vid env.downloadedExt]).contains p)
          with _ | audio_path
        · rw [extract_no_candidate hu hl hd hc]
          exact ⟨fun m hm => by simp at hm, fun p hp => by simp at hp⟩
        · have hcont : ((F ++ [tempFileName vid env.downloadedExt]).contains
            audio_path) = true := List.find?_some hc
          have hmem : audio_path ∈ F ++ [tempFileName vid env.downloadedExt] :=
            contains_true_iff.mp hcont
          have hsing : F = [] →
              audio_path = tempFileName vid env.downloadedExt := by
            intro hF
            rw [hF] at hmem
            simpa using hmem
          rcases ht : env.trimOk with _ | _
          · rw [extract_trim_fallback hu hl hd hc ht]
            refine ⟨fun m hm => by simp at hm, fun p hp => ?_⟩
            have hp' : audio_path = p := by simpa using hp
            subst hp'
            refine ⟨hmem, fun hF => ?_⟩
            rw [hsing hF, hF]
            simp
          · rw [extract_trim_ok hu hl hd hc ht]
            refine ⟨fun m hm => by simp at hm, fun p hp => ?_⟩
            have hp' : (pySplitext audio_path).1 ++ "_trimmed" ++
                (pySplitext audio_path).2 = p := by simpa using hp
            subst hp'
            constructor
            · exact (List.mem_erase_of_ne (trim_output_ne audio_path)).mpr
                (by simp)
            · intro hF
              rw [hsing hF, hF]
              simp [List.erase_cons_head]
    · rw [extract_gotNone hu hl]
      exact ⟨fun m hm => by simp at hm, fun p hp => by simp at hp⟩
    · rw [extract_raised hu hl]
      exact ⟨fun m _ => rfl, fun p hp => by simp at hp⟩
  · rw [extract_invalid hu]
    exact ⟨fun m _ => rfl, fun p hp => by simp at hp⟩

theorem handleFailure_files (st : Store) (tid msg : String)
    (ev : List PipeEvent) (lg : List TaskRecord) (att : Nat) :
    (handleFailure st tid msg ev lg att).store.files = st.files := by
  rcases hp : parse_error_code msg with ⟨c, em⟩
  simp only [handleFailure, hp]
  rcases hf : findTask st tid with _ | r <;> simp only [hf] <;> split <;> rfl

/-- **C7** (amended).  For a run starting with no temp audio files: whenever
extraction raises (so the pipeline fails or is re-queued), and whenever
extraction returns an audio path — on every exit path of the run, including
when recognition, parsing, or persistence raises — the run ends with no temp
audio file left; the `finally` block removes the extracted artifact.  (The
exception, established by the counterexample, is the path where the download
succeeds with an extension outside the candidate list and extraction returns
None: that artifact survives the run.) -/
theorem c7_amended (env : ExtractEnv × ShazamEnv) (st : Store)
    (tid url mid : String) (r0 : TaskRecord) (h : findTask st tid = some r0)
    (hfiles : st.files = []) :
    (∀ m, (extract_audio_from_instagram env.1 url st.files).res = .error m →
      (identify_song_task env st tid url mid).store.files = []) ∧
    (∀ p, (extract_audio_from_instagram env.1 url st.files).res = .ok (some p) →
      (identify_song_task env st tid url mid).store.files = [] ∧
      p ∉ (identify_song_task env st tid url mid).store.files) := by
  have hsv : (saveTask st { r0 with status := Status.processing }).files =
      st.files := rfl
  obtain ⟨hErr, hSome⟩ := extract_files env.1 url st.files
  simp only [identify_song_task, h, hsv]
  generalize hex : extract_audio_from_instagram env.1 url st.files = ex at *
  obtain ⟨exres, exfiles, exevents, exatt⟩ := ex
  rcases exres with m0 | op
  · dsimp only
    constructor
    · intro m hm
      have hfe : exfiles = st.files := hErr m0 rfl
      rw [handleFailure_files]
      rw [hfe, hfiles]
    · intro p hp
      simp at hp
  · rcases op with _ | audio_path
    · dsimp only
      exact ⟨fun m hm => by simp at hm, fun p hp => by simp at hp⟩
    · obtain ⟨hmem, honly⟩ := hSome audio_path rfl
      have hone : exfiles = [audio_path] := honly hfiles
      dsimp only
      rcases hsh : identify_song_with_shazam env.2 audio_path exfiles with msg | tr
      · dsimp only
        constructor
        · intro m hm
          simp at hm
        · intro p hp
          have hp' : audio_path = p := by simpa using hp
          subst hp'
          rw [handleFailure_files]
          rw [hone]
          simp [List.erase_cons_head]
      · rcases tr with _ | track
        · dsimp only
          constructor
          · intro m hm
            simp at hm
          · intro p hp
            have hp' : audio_path = p := by simpa using hp
            subst hp'
            rw [hone]
            simp [saveTask, List.erase_cons_head]
        · dsimp only
          constructor
          · intro m hm
            simp at hm
          · intro p hp
            have hp' : audio_path = p := by simpa using hp
            subst hp'
            rw [hone]
            simp [saveTask, List.erase_cons_head]

/-- **C7** (witness).  The amended theorem at the network-failure
environment on the fresh store: recognition raised, yet no temp audio file
remains and the extracted path is gone. -/
theorem c7_witness :
    (identify_song_task envNet st0 "t1" url1 "ABC123").store.files = [] ∧
    "vid1_trimmed.mp3" ∉ (identify_song_task envNet st0 "t1" url1
      "ABC123").store.files :=
  (c7_amended envNet st0 "t1" url1 "ABC123" (freshTask "t1") (by decide)
    rfl).2 "vid1_trimmed.mp3" (by decide)

/-! ## C8: unsupported URL shapes -/

/-- A `failedReturn` outcome of the first run stops the Celery chain: the
pipeline performs exactly one run. -/
theorem pipeline_runs_one {envs : Nat → ExtractEnv × ShazamEnv} {st : Store}
    {tid url mid c m : String}
    (hout : (identify_song_task (envs 0) st tid url mid).outcome =
      .failedReturn c m) :
    (identify_song_pipeline envs st tid url mid).runs = 1 := by
  show (pipelineGo envs tid url mid 0 (3 + 1) st).runs = 1
  rcases hR : identify_song_task (envs 0) st tid url mid with ⟨st', out, ev, lg, att⟩
  rw [hR] at hout
  simp only at hout
  simp only [pipelineGo, hR, hout]

/-- The human-readable tail of the `INVALID_URL` classification. -/
def invalidUrlTail : String :=
  "This URL type is not supported. Please provide a direct reel URL (e.g. https://www.instagram.com/reels/ABC123/)"

/-- **C8** (amended).  A URL matching an unsupported shape is rejected
synchronously (HTTP 400, no task, nothing queued) only when it also fails
the serializer's URL patterns; when it passes them — as `/reels/audio/...`
URLs do — the submission succeeds, and the `INVALID_URL` classification
happens asynchronously in the queued run, which fails the Task Record with
`INVALID_URL` on its single run, with no retry. -/
theorem c8_amended :
    (∀ (st : Store) (url tid : String), validate_url url = false →
      find_song_post st url tid =
        ⟨st, .badRequest "INVALID_URL"
          "Invalid Instagram URL. Please provide a valid Instagram Reel, Post, or Story URL.",
         none⟩) ∧
    (∀ (env : ExtractEnv × ShazamEnv) (st : Store) (tid url mid : String)
      (r0 : TaskRecord), findTask st tid = some r0 →
      hasUnsupportedPattern url = true →
      (identify_song_task env st tid url mid).outcome =
        .failedReturn "INVALID_URL" invalidUrlTail ∧
      (∃ term : TaskRecord,
        findTask (identify_song_task env st tid url mid).store tid = some term ∧
        term.status = Status.failed ∧ term.errorCode = "INVALID_URL") ∧
      (identify_song_pipeline (fun _ => env) st tid url mid).runs = 1) := by
  constructor
  · intro st url tid hv
    simp only [find_song_post, hv, Bool.not_false, if_true]
  · intro env st tid url mid r0 h hu
    have htid := findTask_taskId h
    have h1 : findTask (saveTask st { r0 with status := Status.processing }) tid =
        some { r0 with status := Status.processing } :=
      findTask_saveTask h (by simpa using htid)
    have hpar : parse_error_code invalidUrlMsg = ("INVALID_URL", invalidUrlTail) := by
      decide
    have hout : (identify_song_task env st tid url mid).outcome =
        .failedReturn "INVALID_URL" invalidUrlTail := by
      have h2 : findTask
          { songs := (saveTask st { r0 with status := Status.processing }).songs,
            tasks := (saveTask st { r0 with status := Status.processing }).tasks,
            files := (saveTask st { r0 with status := Status.processing }).files }
          tid = some { r0 with status := Status.processing } := h1
      simp only [identify_song_task, h, extract_invalid hu]
      rw [handleFailure_found h2 hpar]
      rw [if_pos (by decide)]
    obtain ⟨term, _, hfind, _, _, _, hfailR, _, _⟩ :=
      identify_song_task_spec env st tid url mid r0 h
    exact ⟨hout, ⟨term, hfind, (hfailR _ _ hout).1, (hfailR _ _ hout).2.2.1⟩,
      @pipeline_runs_one (fun _ => env) st tid url mid "INVALID_URL"
        invalidUrlTail hout⟩

/-- **C8** (witness).  `/accounts/` URLs fail the serializer and are
rejected synchronously; the `/reels/audio/` URL that passed validation (see
the counterexample) fails asynchronously with `INVALID_URL` in one run. -/
theorem c8_witness :
    find_song_post { songs := [], tasks := [], files := [] }
      "https://instagram.com/accounts/login/" "t1" =
      ⟨{ songs := [], tasks := [], files := [] },
       .badRequest "INVALID_URL"
         "Invalid Instagram URL. Please provide a valid Instagram Reel, Post, or Story URL.",
       none⟩ ∧
    (identify_song_task envSuccess st0 "t1" reelsAudioUrl "audio").outcome =
      .failedReturn "INVALID_URL" invalidUrlTail ∧
    (identify_song_pipeline (fun _ => envSuccess) st0 "t1" reelsAudioUrl
      "audio").runs = 1 :=
  ⟨c8_amended.1 { songs := [], tasks := [], files := [] }
     "https://instagram.com/accounts/login/" "t1" (by decide),
   (c8_amended.2 envSuccess st0 "t1" reelsAudioUrl "audio" (freshTask "t1")
     (by decide) (by decide)).1,
   (c8_amended.2 envSuccess st0 "t1" reelsAudioUrl "audio" (freshTask "t1")
     (by decide) (by decide)).2.2⟩

/-! ## C1: terminal-state stability -/

/-- Shape of the ordered task-record writes of one whole pipeline: blocks of
(Processing write, terminal write) pairs.  Every non-final block ends with a
Failed write — the retryable case, resurrected by the next block's
Processing write — and the final block ends Completed or Failed. -/
inductive LogShape : List TaskRecord → Prop
  | final (p t : TaskRecord) (h1 : p.status = Status.processing)
      (h2 : t.status = Status.completed ∨ t.status = Status.failed) :
      LogShape [p, t]
  | step (p t : TaskRecord) (rest : List TaskRecord)
      (h1 : p.status = Status.processing) (h2 : t.status = Status.failed)
      (h3 : LogShape rest) : LogShape (p :: t :: rest)

theorem LogShape.ne_nil {l : List TaskRecord} (h : LogShape l) : l ≠ [] := by
  cases h <;> simp

/-- Polling reads exactly the stored record's status (a pure read). -/
theorem task_status_get_status {st : Store} {tid : String} {r : TaskRecord}
    (h : findTask st tid = some r) :
    (task_status_get st tid).status = some r.status := by
  simp only [task_status_get, h]
  split
  · split <;> rfl
  · split <;> rfl

theorem pipelineGo_spec (envs : Nat → ExtractEnv × ShazamEnv)
    (tid url mid : String) :
    ∀ (fuel r : Nat) (st : Store) (r0 : TaskRecord),
      findTask st tid = some r0 → r ≤ CELERY_MAX_RETRIES →
      fuel = CELERY_MAX_RETRIES + 1 - r →
      ∃ term : TaskRecord,
        LogShape (pipelineGo envs tid url mid r fuel st).log ∧
        (pipelineGo envs tid url mid r fuel st).log.getLast? = some term ∧
        findTask (pipelineGo envs tid url mid r fuel st).store tid = some term ∧
        (term.status = Status.completed ∨ term.status = Status.failed) := by
  intro fuel
  induction fuel with
  | zero =>
    intro r st r0 h hr hf
    exact absurd hf (by simp [CELERY_MAX_RETRIES]; omega)
  | succ fuel' ih =>
    intro r st r0 h hr hf
    obtain ⟨t1, hlog, hfind, htid', hterm, hretry, hfailR, hdT, hdF⟩ :=
      identify_song_task_spec (envs r) st tid url mid r0 h
    rcases hR : identify_song_task (envs r) st tid url mid with
      ⟨st', out, ev, lg, att⟩
    rw [hR] at hlog hfind hretry hfailR hdT hdF
    simp only at hlog hfind hretry hfailR hdT hdF
    rcases out with b | ⟨c, m⟩ | m
    · simp only [pipelineGo, hR]
      refine ⟨t1, ?_, ?_, hfind, hterm⟩
      · rw [hlog]
        exact LogShape.final _ _ rfl hterm
      · rw [hlog]
        simp
    · simp only [pipelineGo, hR]
      refine ⟨t1, ?_, ?_, hfind, hterm⟩
      · rw [hlog]
        exact LogShape.final _ _ rfl hterm
      · rw [hlog]
        simp
    · have hout := hretry m rfl
      by_cases hrlt : r < CELERY_MAX_RETRIES
      · obtain ⟨term2, hL2, hlast2, hfind2, hterm2⟩ :=
          ih (r + 1) st' t1 hfind (by omega)
            (by simp [CELERY_MAX_RETRIES] at hf ⊢; omega)
        simp only [pipelineGo, hR, if_pos hrlt]
        refine ⟨term2, ?_, ?_, hfind2, hterm2⟩
        · rw [hlog]
          exact LogShape.step _ _ _ rfl hout.1 hL2
        · rw [hlog]
          rw [List.getLast?_append, hlast2]
          rfl
      · simp only [pipelineGo, hR, if_neg hrlt]
        refine ⟨t1, ?_, ?_, hfind, hterm⟩
        · rw [hlog]
          exact LogShape.final _ _ rfl (Or.inr hout.1)
        · rw [hlog]
          simp

/-- **C1** (amended).  For any task present in the store, the whole
pipeline's record writes form (Processing, terminal) blocks: every
intermediate block ends with a Failed write — a retryable failure writes
Failed BEFORE re-queuing and is resurrected to Processing by the next run —
and only the final write is stable; it is Completed, or Failed from a
non-retryable kind or retry exhaustion, it is exactly what the store holds
when the pipeline ends, and a poll then reports exactly that stored
status (polling is a pure read). -/
theorem c1_amended (envs : Nat → ExtractEnv × ShazamEnv) (st : Store)
    (tid url mid : String) (r0 : TaskRecord)
    (h : findTask st tid = some r0) :
    ∃ term : TaskRecord,
      LogShape (identify_song_pipeline envs st tid url mid).log ∧
      (identify_song_pipeline envs st tid url mid).log.getLast? = some term ∧
      findTask (identify_song_pipeline envs st tid url mid).store tid =
        some term ∧
      (term.status = Status.completed ∨ term.status = Status.failed) ∧
      (task_status_get (identify_song_pipeline envs st tid url mid).store
        tid).status = some term.status := by
  obtain ⟨term, h1, h2, h3, h4⟩ :=
    pipelineGo_spec envs tid url mid (CELERY_MAX_RETRIES + 1) 0 st r0 h
      (by omega) (by omega)
  exact ⟨term, h1, h2, h3, h4, task_status_get_status h3⟩

/-- **C1** (witness).  The amended theorem at the network-failure-then-
success environment on the fresh single-task store (the trace of the
counterexample). -/
theorem c1_witness :
    ∃ term : TaskRecord,
      LogShape (identify_song_pipeline envNetThenSuccess st0 "t1" url1
        "ABC123").log ∧
      (identify_song_pipeline envNetThenSuccess st0 "t1" url1
        "ABC123").log.getLast? = some term ∧
      findTask (identify_song_pipeline envNetThenSuccess st0 "t1" url1
        "ABC123").store "t1" = some term ∧
      (term.status = Status.completed ∨ term.status = Status.failed) ∧
      (task_status_get (identify_song_pipeline envNetThenSuccess st0 "t1" url1
        "ABC123").store "t1").status = some term.status :=
  c1_amended envNetThenSuccess st0 "t1" url1 "ABC123" (freshTask "t1")
    (by decide)

/-! ## C3 / C4: retry policy for concrete environment families -/

/-- The Processing write derived from a record. -/
def procW (r : TaskRecord) : TaskRecord := { r with status := Status.processing }

/-- The Failed write with a classification. -/
def failW (code msg : String) (r : TaskRecord) : TaskRecord :=
  { r with status := Status.failed, errorCode := code, errorMessage := msg }

/-- Evaluation of `extract_audio_from_instagram` under `goodExtract` for any
initial temp filesystem: one metadata attempt, download of `vid1.mp3`,
successful trim to `vid1_trimmed.mp3`, original removed. -/
theorem extract_goodExtract (url : String) (F : List String)
    (hu : hasUnsupportedPattern url = false) :
    extract_audio_from_instagram goodExtract url F =
      { res := .ok (some "vid1_trimmed.mp3"),
        files := ((F ++ ["vid1.mp3"]) ++ ["vid1_trimmed.mp3"]).erase "vid1.mp3",
        events := [], attempts := 1 } := by
  have hl : attemptLoop goodExtract.attempts 1 MAX_RETRIES =
      (.success "vid1", [], 1) := by decide
  have hc : (["mp3", "m4a", "mp4", "webm"].map (tempFileName "vid1")).find?
      (fun p => (F ++ [tempFileName "vid1" goodExtract.downloadedExt]).contains p) =
      some "vid1.mp3" := by
    simp only [List.map_cons]
    have hmem : tempFileName "vid1" "mp3" ∈
        F ++ [tempFileName "vid1" goodExtract.downloadedExt] := by
      simp [tempFileName, goodExtract]
    have hpos : ((F ++ [tempFileName "vid1" goodExtract.downloadedExt]).contains
        (tempFileName "vid1" "mp3")) = true := contains_true_iff.mpr hmem
    rw [List.find?_cons_of_pos _ hpos]
    rfl
  have heq := @extract_trim_ok goodExtract url F _ _ _ _ hu hl rfl hc rfl
  rw [heq]
  have h1 : (pySplitext "vid1.mp3").1 ++ "_trimmed" ++ (pySplitext "vid1.mp3").2 =
      "vid1_trimmed.mp3" := by decide
  have h2 : tempFileName "vid1" goodExtract.downloadedExt = "vid1.mp3" := by decide
  rw [h1, h2]

/-- One run under `envAuth` on a store with no temp files: the record is
written Processing then Failed `AUTH_ERROR`, the temp files are cleaned up,
and `self.retry` is raised. -/
theorem run_auth (st : Store) (tid url mid : String) (r0 : TaskRecord)
    (h : findTask st tid = some r0) (hu : hasUnsupportedPattern url = false)
    (hF : st.files = []) :
    identify_song_task envAuth st tid url mid =
      ⟨{ saveTask (saveTask st (procW r0))
           (failW "AUTH_ERROR" "Shazam 403. Body: denied" r0) with files := [] },
       .retryRaised "AUTH_ERROR: Shazam 403. Body: denied", [],
       [procW r0, failW "AUTH_ERROR" "Shazam 403. Body: denied" r0], 1⟩ := by
  have htid := findTask_taskId h
  have h1 : findTask (saveTask st (procW r0)) tid = some (procW r0) :=
    findTask_saveTask h (by simpa [procW] using htid)
  have hsv : (saveTask st { r0 with status := Status.processing }).files =
      st.files := rfl
  have hex := extract_goodExtract url (saveTask st { r0 with
    status := Status.processing }).files hu
  rw [hsv, hF] at hex
  have hfe : ((([] ++ ["vid1.mp3"]) ++ ["vid1_trimmed.mp3"]).erase "vid1.mp3") =
      ["vid1_trimmed.mp3"] := by decide
  rw [hfe] at hex
  have hshz : identify_song_with_shazam authFailShazam "vid1_trimmed.mp3"
      ["vid1_trimmed.mp3"] =
      .error "AUTH_ERROR: Shazam 403. Body: denied" := by decide
  have hpar : parse_error_code "AUTH_ERROR: Shazam 403. Body: denied" =
      ("AUTH_ERROR", "Shazam 403. Body: denied") := by decide
  have hfe2 : (["vid1_trimmed.mp3"] : List String).erase "vid1_trimmed.mp3" =
      [] := by decide
  have h2 : findTask
      { songs := (saveTask st { r0 with status := Status.processing }).songs,
        tasks := (saveTask st { r0 with status := Status.processing }).tasks,
        files := ([] : List String) }
      tid = some { r0 with status := Status.processing } := h1
  simp only [identify_song_task, h, envAuth, hsv, hF, hex, hshz, hfe2]
  rw [handleFailure_found h2 hpar]
  rw [if_neg (by decide)]
  rfl

/-- One run under `envDlFail`: ten extraction attempts with a 5-second sleep
between consecutive attempts, then classification `DOWNLOAD_ERROR`, the
record written Processing then Failed, and `self.retry` raised. -/
theorem run_dlfail (st : Store) (tid url mid : String) (r0 : TaskRecord)
    (h : findTask st tid = some r0) (hu : hasUnsupportedPattern url = false) :
    identify_song_task envDlFail st tid url mid =
      ⟨saveTask (saveTask st (procW r0)) (failW "DOWNLOAD_ERROR" "boom" r0),
       .retryRaised "DOWNLOAD_ERROR: boom",
       List.replicate 9 (PipeEvent.sleep 5),
       [procW r0, failW "DOWNLOAD_ERROR" "boom" r0], 10⟩ := by
  have htid := findTask_taskId h
  have h1 : findTask (saveTask st (procW r0)) tid = some (procW r0) :=
    findTask_saveTask h (by simpa [procW] using htid)
  have hl : attemptLoop envDlFail.1.attempts 1 MAX_RETRIES =
      (.raised "DOWNLOAD_ERROR: boom", List.replicate 9 (PipeEvent.sleep 5),
       10) := by decide
  have hex := @extract_raised envDlFail.1 url
    ((saveTask st { r0 with status := Status.processing }).files) _ _ _ hu hl
  have hpar : parse_error_code "DOWNLOAD_ERROR: boom" =
      ("DOWNLOAD_ERROR", "boom") := by decide
  have h2 : findTask
      { songs := (saveTask st { r0 with status := Status.processing }).songs,
        tasks := (saveTask st { r0 with status := Status.processing }).tasks,
        files := (saveTask st { r0 with status := Status.processing }).files }
      tid = some { r0 with status := Status.processing } := h1
  simp only [identify_song_task, h, hex]
  rw [handleFailure_found h2 hpar]
  rw [if_neg (by decide)]
  rfl

/-- The Failed write produced by one `envAuth` run. -/
def aF (r : TaskRecord) : TaskRecord :=
  failW "AUTH_ERROR" "Shazam 403. Body: denied" r

/-- The store left by one `envAuth` run on a record `r`. -/
def authStep (r : TaskRecord) (st : Store) : Store :=
  { saveTask (saveTask st (procW r)) (aF r) with files := [] }

/-- `run_auth` restated through the `authStep` / `aF` abbreviations. -/
theorem run_auth_eq (st : Store) (tid url mid : String) (r0 : TaskRecord)
    (h : findTask st tid = some r0) (hu : hasUnsupportedPattern url = false)
    (hF : st.files = []) :
    identify_song_task envAuth st tid url mid =
      ⟨authStep r0 st, .retryRaised "AUTH_ERROR: Shazam 403. Body: denied", [],
       [procW r0, aF r0], 1⟩ :=
  run_auth st tid url mid r0 h hu hF

theorem authStep_spec (st : Store) (tid : String) (r : TaskRecord)
    (h : findTask st tid = some r) (htid : r.taskId = tid) :
    findTask (authStep r st) tid = some (aF r) ∧
    (authStep r st).files = [] := by
  constructor
  · simp only [authStep, findTask_setFiles]
    exact findTask_saveTask (findTask_saveTask h (by simp [procW, htid]))
      (by simp [aF, failW, htid])
  · rfl

theorem aF_taskId (r : TaskRecord) : (aF r).taskId = r.taskId := rfl

/-- **C3** (amended).  `AUTH_ERROR` is NOT among the non-retryable kinds:
a pipeline whose recognition collaborator always rejects credentials is
re-queued at the whole-pipeline ceiling like any retryable kind — four runs
(the initial one plus three re-queues, each after the 5-second retry delay)
— and only then is the task finally Failed with `AUTH_ERROR`. -/
theorem c3_amended (st : Store) (tid url mid : String) (r0 : TaskRecord)
    (h : findTask st tid = some r0) (hu : hasUnsupportedPattern url = false)
    (hF : st.files = []) :
    (identify_song_pipeline (fun _ => envAuth) st tid url mid).runs = 4 ∧
    (identify_song_pipeline (fun _ => envAuth) st tid url mid).events =
      [PipeEvent.requeue 5, PipeEvent.requeue 5, PipeEvent.requeue 5] ∧
    findTask (identify_song_pipeline (fun _ => envAuth) st tid url mid).store
      tid = some (failW "AUTH_ERROR" "Shazam 403. Body: denied" r0) ∧
    (failW "AUTH_ERROR" "Shazam 403. Body: denied" r0).status =
      Status.failed := by
  have htid := findTask_taskId h
  have htid1 : (aF r0).taskId = tid := by rw [aF_taskId, htid]
  have htid2 : (aF (aF r0)).taskId = tid := by rw [aF_taskId, aF_taskId, htid]
  have htid3 : (aF (aF (aF r0))).taskId = tid := by
    rw [aF_taskId, aF_taskId, aF_taskId, htid]
  have h0 := run_auth_eq st tid url mid r0 h hu hF
  obtain ⟨hf1, hm1⟩ := authStep_spec st tid r0 h htid
  have h1 := run_auth_eq (authStep r0 st) tid url mid (aF r0) hf1 hu hm1
  obtain ⟨hf2, hm2⟩ := authStep_spec (authStep r0 st) tid (aF r0) hf1 htid1
  have h2 := run_auth_eq (authStep (aF r0) (authStep r0 st)) tid url mid
    (aF (aF r0)) hf2 hu hm2
  obtain ⟨hf3, hm3⟩ := authStep_spec (authStep (aF r0) (authStep r0 st)) tid
    (aF (aF r0)) hf2 htid2
  have h3 := run_auth_eq
    (authStep (aF (aF r0)) (authStep (aF r0) (authStep r0 st))) tid url mid
    (aF (aF (aF r0))) hf3 hu hm3
  obtain ⟨hf4, _⟩ := authStep_spec
    (authStep (aF (aF r0)) (authStep (aF r0) (authStep r0 st))) tid
    (aF (aF (aF r0))) hf3 htid3
  have e0 : identify_song_pipeline (fun _ => envAuth) st tid url mid =
      ⟨authStep (aF (aF (aF r0)))
         (authStep (aF (aF r0)) (authStep (aF r0) (authStep r0 st))), 4,
       [PipeEvent.requeue 5, PipeEvent.requeue 5, PipeEvent.requeue 5],
       [procW r0, aF r0] ++
         ([procW (aF r0), aF (aF r0)] ++
          ([procW (aF (aF r0)), aF (aF (aF r0))] ++
           [procW (aF (aF (aF r0))), aF (aF (aF (aF r0)))])),
       [1, 1, 1, 1]⟩ := by
    show pipelineGo (fun _ => envAuth) tid url mid 0 (3 + 1) st = _
    simp only [pipelineGo, h0, h1, h2, h3]
    rfl
  rw [e0]
  exact ⟨rfl, rfl, hf4, rfl⟩

/-- **C3** (witness).  The amended theorem on the fresh single-task store. -/
theorem c3_witness :
    (identify_song_pipeline (fun _ => envAuth) st0 "t1" url1 "ABC123").runs = 4 ∧
    (identify_song_pipeline (fun _ => envAuth) st0 "t1" url1 "ABC123").events =
      [PipeEvent.requeue 5, PipeEvent.requeue 5, PipeEvent.requeue 5] ∧
    findTask (identify_song_pipeline (fun _ => envAuth) st0 "t1" url1
      "ABC123").store "t1" =
      some (failW "AUTH_ERROR" "Shazam 403. Body: denied" (freshTask "t1")) ∧
    (failW "AUTH_ERROR" "Shazam 403. Body: denied" (freshTask "t1")).status =
      Status.failed :=
  c3_amended st0 "t1" url1 "ABC123" (freshTask "t1") (by decide) (by decide) rfl

/-- The Failed write produced by one `envDlFail` run. -/
def dF (r : TaskRecord) : TaskRecord := failW "DOWNLOAD_ERROR" "boom" r

/-- The store left by one `envDlFail` run on a record `r`. -/
def dlStep (r : TaskRecord) (st : Store) : Store :=
  saveTask (saveTask st (procW r)) (dF r)

/-- `run_dlfail` restated through the `dlStep` / `dF` abbreviations. -/
theorem run_dlfail_eq (st : Store) (tid url mid : String) (r0 : TaskRecord)
    (h : findTask st tid = some r0) (hu : hasUnsupportedPattern url = false) :
    identify_song_task envDlFail st tid url mid =
      ⟨dlStep r0 st, .retryRaised "DOWNLOAD_ERROR: boom",
       List.replicate 9 (PipeEvent.sleep 5), [procW r0, dF r0], 10⟩ :=
  run_dlfail st tid url mid r0 h hu

theorem dlStep_spec (st : Store) (tid : String) (r : TaskRecord)
    (h : findTask st tid = some r) (htid : r.taskId = tid) :
    findTask (dlStep r st) tid = some (dF r) :=
  findTask_saveTask (findTask_saveTask h (by simp [procW, htid]))
    (by simp [dF, failW, htid])

theorem dF_taskId (r : TaskRecord) : (dF r).taskId = r.taskId := rfl

/-- **C4** (amended).  Under an always-retryable download failure the attempt
ceilings and delays are exactly as configured — each run makes 10 extraction
attempts with a 5-second sleep between consecutive attempts (9 sleeps), and
the pipeline is re-queued 3 times with a 5-second delay, for exactly 4 runs —
but the Task Record does NOT first reach Failed at the ceiling: every failing
run writes Failed before its re-queue, so the record is already Failed after
run 1; the ceiling only makes that write final. -/
theorem c4_amended (st : Store) (tid url mid : String) (r0 : TaskRecord)
    (h : findTask st tid = some r0) (hu : hasUnsupportedPattern url = false) :
    (identify_song_pipeline (fun _ => envDlFail) st tid url mid).runs = 4 ∧
    (identify_song_pipeline (fun _ => envDlFail) st tid url
      mid).attemptsPerRun = [10, 10, 10, 10] ∧
    (identify_song_pipeline (fun _ => envDlFail) st tid url mid).events =
      List.replicate 9 (PipeEvent.sleep 5) ++ PipeEvent.requeue 5 ::
        (List.replicate 9 (PipeEvent.sleep 5) ++ PipeEvent.requeue 5 ::
          (List.replicate 9 (PipeEvent.sleep 5) ++ PipeEvent.requeue 5 ::
            List.replicate 9 (PipeEvent.sleep 5))) ∧
    findTask (identify_song_pipeline (fun _ => envDlFail) st tid url mid).store
      tid = some (failW "DOWNLOAD_ERROR" "boom" r0) ∧
    (identify_song_pipeline (fun _ => envDlFail) st tid url mid).log.map
      (fun w => w.status) =
      [Status.processing, Status.failed, Status.processing, Status.failed,
       Status.processing, Status.failed, Status.processing, Status.failed] := by
  have htid := findTask_taskId h
  have htid1 : (dF r0).taskId = tid := by rw [dF_taskId, htid]
  have htid2 : (dF (dF r0)).taskId = tid := by rw [dF_taskId, dF_taskId, htid]
  have htid3 : (dF (dF (dF r0))).taskId = tid := by
    rw [dF_taskId, dF_taskId, dF_taskId, htid]
  have h0 := run_dlfail_eq st tid url mid r0 h hu
  have hf1 := dlStep_spec st tid r0 h htid
  have h1 := run_dlfail_eq (dlStep r0 st) tid url mid (dF r0) hf1 hu
  have hf2 := dlStep_spec (dlStep r0 st) tid (dF r0) hf1 htid1
  have h2 := run_dlfail_eq (dlStep (dF r0) (dlStep r0 st)) tid url mid
    (dF (dF r0)) hf2 hu
  have hf3 := dlStep_spec (dlStep (dF r0) (dlStep r0 st)) tid (dF (dF r0))
    hf2 htid2
  have h3 := run_dlfail_eq
    (dlStep (dF (dF r0)) (dlStep (dF r0) (dlStep r0 st))) tid url mid
    (dF (dF (dF r0))) hf3 hu
  have hf4 := dlStep_spec
    (dlStep (dF (dF r0)) (dlStep (dF r0) (dlStep r0 st))) tid
    (dF (dF (dF r0))) hf3 htid3
  have e0 : identify_song_pipeline (fun _ => envDlFail) st tid url mid =
      ⟨dlStep (dF (dF (dF r0)))
         (dlStep (dF (dF r0)) (dlStep (dF r0) (dlStep r0 st))), 4,
       List.replicate 9 (PipeEvent.sleep 5) ++ PipeEvent.requeue 5 ::
         (List.replicate 9 (PipeEvent.sleep 5) ++ PipeEvent.requeue 5 ::
           (List.replicate 9 (PipeEvent.sleep 5) ++ PipeEvent.requeue 5 ::
             List.replicate 9 (PipeEvent.sleep 5))),
       [procW r0, dF r0] ++
         ([procW (dF r0), dF (dF r0)] ++
          ([procW (dF (dF r0)), dF (dF (dF r0))] ++
           [procW (dF (dF (dF r0))), dF (dF (dF (dF r0)))])),
       [10, 10, 10, 10]⟩ := by
    show pipelineGo (fun _ => envDlFail) tid url mid 0 (3 + 1) st = _
    simp only [pipelineGo, h0, h1, h2, h3]
    rfl
  rw [e0]
  exact ⟨rfl, rfl, rfl, hf4, rfl⟩

/-- **C4** (witness).  The amended theorem on the fresh single-task store. -/
theorem c4_witness :
    (identify_song_pipeline (fun _ => envDlFail) st0 "t1" url1 "ABC123").runs
      = 4 ∧
    (identify_song_pipeline (fun _ => envDlFail) st0 "t1" url1
      "ABC123").attemptsPerRun = [10, 10, 10, 10] ∧
    (identify_song_pipeline (fun _ => envDlFail) st0 "t1" url1 "ABC123").events
      = List.replicate 9 (PipeEvent.sleep 5) ++ PipeEvent.requeue 5 ::
        (List.replicate 9 (PipeEvent.sleep 5) ++ PipeEvent.requeue 5 ::
          (List.replicate 9 (PipeEvent.sleep 5) ++ PipeEvent.requeue 5 ::
            List.replicate 9 (PipeEvent.sleep 5))) ∧
    findTask (identify_song_pipeline (fun _ => envDlFail) st0 "t1" url1
      "ABC123").store "t1" =
      some (failW "DOWNLOAD_ERROR" "boom" (freshTask "t1")) ∧
    (identify_song_pipeline (fun _ => envDlFail) st0 "t1" url1 "ABC123").log.map
      (fun w => w.status) =
      [Status.processing, Status.failed, Status.processing, Status.failed,
       Status.processing, Status.failed, Status.processing, Status.failed] :=
  c4_amended st0 "t1" url1 "ABC123" (freshTask "t1") (by decide) (by decide)

end IgSongFinder
